import Mathlib

/-!
# Verification of the pairing-bots orchestration core

A shallow embedding of the pairing-bots repository (TypeScript) into Lean 4.

* `parsing.ts` (tagged protocol parser) is embedded as executable functions over
  `String` / `List Char`; the JS regex `<tag>([\s\S]*?)<\/tag>` (case-insensitive,
  lazy) is embedded as a leftmost-match scanner.
* `createDriverExecutionTracker` (orchestrator.ts, later version) and the inline
  tracker of the earlier orchestrator version are embedded as step functions on
  an explicit tracker state; the JS `Map` is an association list with unique keys.
* The paired-turns round loop, `shouldSwapDriver`, `buildSummary`, the
  `SessionObserver`, and `parseCli` are embedded as pure state-passing functions;
  `Date.now()` is threaded as an explicit clock input; JS numbers used for byte
  counts and counters are `Nat`, percentage arithmetic is modelled over `ℚ`
  with `Math.round x = ⌊x + 1/2⌋`; thrown JS errors are `Except String`.
-/

namespace PairingBots

/-! ## String helpers (JS `trim`, `toUpperCase`, `toLowerCase`, `replace(/[.!]+$/,"")`) -/

/-- ASCII upper-casing of one char, as JS `toUpperCase` acts on ASCII. -/
def jsToUpperChar (c : Char) : Char :=
  if 'a' ≤ c ∧ c ≤ 'z' then Char.ofNat (c.toNat - 32) else c

/-- ASCII lower-casing of one char, as JS `toLowerCase` acts on ASCII. -/
def jsToLowerChar (c : Char) : Char :=
  if 'A' ≤ c ∧ c ≤ 'Z' then Char.ofNat (c.toNat + 32) else c

/-- Whitespace as JS `trim` treats ASCII input. -/
def isJsSpace (c : Char) : Bool :=
  c == ' ' || c == '\t' || c == '\n' || c == '\r' || c == '\x0b' || c == '\x0c'

def trimChars (cs : List Char) : List Char :=
  ((cs.dropWhile isJsSpace).reverse.dropWhile isJsSpace).reverse

/-- JS `String.prototype.trim`. -/
def jsTrim (s : String) : String := ⟨trimChars s.data⟩

/-- JS `String.prototype.toUpperCase` (ASCII fragment). -/
def jsToUpper (s : String) : String := ⟨s.data.map jsToUpperChar⟩

/-- JS `String.prototype.toLowerCase` (ASCII fragment). -/
def jsToLower (s : String) : String := ⟨s.data.map jsToLowerChar⟩

/-- JS `replace(/[.!]+$/, "")`: drop every trailing `.` or `!`. -/
def stripTrailingDotBang (s : String) : String :=
  ⟨(s.data.reverse.dropWhile (fun c => c == '.' || c == '!')).reverse⟩

/-! ## Tagged protocol parser (src `parsing.ts`, `extractTag`)

`extractTag(text, tag)` matches the regex `<tag>([\s\S]*?)<\/tag>` with flag `i`:
the leftmost position where `<tag>` matches case-insensitively and some
case-insensitive `</tag>` occurs after it; the lazy group takes the content up
to the first such closing tag; the result is trimmed. -/

/-- Case-insensitive "is `pat` a prefix of `cs`". -/
def ciPrefix : List Char → List Char → Bool
  | [], _ => true
  | _ :: _, [] => false
  | p :: ps, c :: cs => jsToLowerChar p == jsToLowerChar c && ciPrefix ps cs

/-- Content before the first case-insensitive occurrence of `pat`; `none` if absent. -/
def splitAtFirstCI (pat : List Char) : List Char → Option (List Char)
  | [] => if ciPrefix pat [] then some [] else none
  | c :: cs =>
    if ciPrefix pat (c :: cs) then some []
    else (splitAtFirstCI pat cs).map (c :: ·)

/-- Scan for the leftmost open-tag match that is followed by a close tag. -/
def extractTagAux (opn cls : List Char) : List Char → Option (List Char)
  | [] => none
  | c :: cs =>
    if ciPrefix opn (c :: cs) then
      match splitAtFirstCI cls (List.drop opn.length (c :: cs)) with
      | some content => some content
      | none => extractTagAux opn cls cs
    else extractTagAux opn cls cs

/-- src `parsing.ts` `extractTag`. -/
def extractTag (text tag : String) : Option String :=
  let opn := ('<' :: tag.data) ++ ['>']
  let cls := ('<' :: '/' :: tag.data) ++ ['>']
  (extractTagAux opn cls text.data).map (fun content => jsTrim ⟨content⟩)

/-! ## Protocol parse functions (src `parsing.ts`) -/

structure DriverReport where
  status : String
  summary : String
  changes : String
  questionsForNavigator : String
  raw : String
deriving DecidableEq

/-- src `parsing.ts` `parseDriverReport`. -/
def parseDriverReport (raw : String) : DriverReport :=
  let statusRaw := (extractTag raw "status").map jsToLower
  let status := if statusRaw == some "done" then "done" else "continue"
  let summary := (extractTag raw "summary").getD (jsTrim raw)
  let changes := (extractTag raw "changes").getD "(driver did not provide a structured changes section)"
  let questionsForNavigator := (extractTag raw "questions_for_navigator").getD "NONE"
  { status, summary, changes, questionsForNavigator, raw }

structure NavigatorReview where
  privateReflection : String
  publicFeedback : String
  hasFeedback : Bool
  driverRecommendation : String
  raw : String
deriving DecidableEq

/-- src `parsing.ts` `parseNavigatorReview`; the `normalizedFeedback` local is
`publicFeedback.trim().toUpperCase().replace(/[.!]+$/, "")`. -/
def parseNavigatorReview (raw : String) : NavigatorReview :=
  let privateReflection := (extractTag raw "private_reflection").getD "(no private reflection provided)"
  let publicFeedback := (extractTag raw "public_feedback").getD "NONE"
  let normalizedFeedback := stripTrailingDotBang (jsToUpper (jsTrim publicFeedback))
  let hasFeedback := normalizedFeedback != "NONE"
  let recommendationRaw := (extractTag raw "driver_recommendation").map jsToLower
  let driverRecommendation := if recommendationRaw == some "handoff" then "handoff" else "continue"
  { privateReflection, publicFeedback, hasFeedback, driverRecommendation, raw }

structure DriverDecision where
  decision : String
  justification : String
  raw : String
deriving DecidableEq

/-- src `parsing.ts` `parseDriverDecision`. -/
def parseDriverDecision (raw : String) : DriverDecision :=
  let decisionRaw := (extractTag raw "decision").map jsToLower
  let decision :=
    if decisionRaw == some "accept" || decisionRaw == some "reject" then
      (decisionRaw.getD "partial")
    else "partial"
  let justification := (extractTag raw "justification").getD (jsTrim raw)
  { decision, justification, raw }

structure JointVerdict where
  jointVerdict : String
  rationale : String
  nextSteps : String
  raw : String
deriving DecidableEq

/-- src `parsing.ts` `parseJointVerdict`. -/
def parseJointVerdict (raw : String) : JointVerdict :=
  let verdictRaw := (extractTag raw "joint_verdict").map jsToUpper
  let jointVerdict := if verdictRaw == some "APPROVED" then "APPROVED" else "NEEDS_MORE_WORK"
  let rationale := (extractTag raw "rationale").getD (jsTrim raw)
  let nextSteps := (extractTag raw "next_steps").getD "NONE"
  { jointVerdict, rationale, nextSteps, raw }

/-! ## Execution tracker (src orchestrator, `createDriverExecutionTracker`) -/

/-- `PauseStrategy` from src `types.ts`: `{mode:"none"}` or
`{mode:"every_n_file_edits", editsPerPause, countedTools}`. -/
inductive PauseStrategy
  | noneMode
  | every_n_file_edits (editsPerPause : Nat) (countedTools : List String)
deriving DecidableEq

/-- `TurnPolicy` from src `types.ts`. -/
inductive TurnPolicy
  | alternate_each_round
  | same_driver_until_navigator_signoff (maxConsecutiveRounds maxConsecutiveCheckpoints : Nat)
deriving DecidableEq

inductive AgentId
  | A
  | B
deriving DecidableEq

/-- src orchestrator `otherAgent`. -/
def otherAgent : AgentId → AgentId
  | .A => .B
  | .B => .A

/-- The `args` of a tool call, restricted to the fields `estimateWrittenBytes`
reads: `content` (for `write`) and `newText` (for `edit`); `notObject` stands
for a non-object (absent/primitive) argument value, and `none` fields for
absent or non-string properties. -/
inductive ToolArgs
  | notObject
  | object (content : Option String) (newText : Option String)
deriving DecidableEq

/-- `Buffer.byteLength(value, "utf8")`. -/
def byteLength (value : String) : Nat := value.utf8ByteSize

/-- src orchestrator `estimateWrittenBytes`. -/
def estimateWrittenBytes (toolName : String) (args : ToolArgs) : Nat :=
  match args with
  | .notObject => 0
  | .object content newText =>
    if toolName == "write" then
      match content with
      | some s => byteLength s
      | none => 0
    else if toolName == "edit" then
      match newText with
      | some s => byteLength s
      | none => 0
    else 0

/-- The `AgentEvent`s the tracker inspects: `tool_execution_start`,
`tool_execution_end`, and anything else (`message_start`, …) as `other`. -/
inductive AgentEvent
  | tool_execution_start (toolCallId toolName : String) (args : ToolArgs)
  | tool_execution_end (toolCallId toolName : String) (isError : Bool)
  | other
deriving DecidableEq

/-- JS `Map.set` on an association list with unique keys: update in place or append. -/
def mapSet (m : List (String × Nat)) (k : String) (v : Nat) : List (String × Nat) :=
  match m with
  | [] => [(k, v)]
  | (k', v') :: rest => if k' == k then (k, v) :: rest else (k', v') :: mapSet rest k v

/-- JS `Map.get` (as `Option`). -/
def mapGet (m : List (String × Nat)) (k : String) : Option Nat :=
  match m with
  | [] => none
  | (k', v') :: rest => if k' == k then some v' else mapGet rest k

/-- JS `Map.delete`. -/
def mapDelete (m : List (String × Nat)) (k : String) : List (String × Nat) :=
  m.filter (fun kv => kv.1 != k)

/-- Tracker phase flag. -/
inductive Phase
  | driving
  | feedback_resolution
deriving DecidableEq

/-- The mutable state closed over by `createDriverExecutionTracker`.
`nextCheckpointAt = none` stands for the JS `Infinity` used when the pause
strategy is `none`. -/
structure TrackerState where
  pauseTriggered : Bool
  countedEdits : Nat
  nextCheckpointAt : Option Nat
  checkpointCount : Nat
  editWriteCallCount : Nat
  estimatedWrittenBytes : Nat
  pendingWriteEstimates : List (String × Nat)
  currentPhase : Phase
deriving DecidableEq

/-- Initial tracker state, as set up by `createDriverExecutionTracker`. -/
def trackerInit (pauseStrategy : PauseStrategy) : TrackerState :=
  { pauseTriggered := false
    countedEdits := 0
    nextCheckpointAt :=
      match pauseStrategy with
      | .every_n_file_edits editsPerPause _ => some editsPerPause
      | .noneMode => none
    checkpointCount := 0
    editWriteCallCount := 0
    estimatedWrittenBytes := 0
    pendingWriteEstimates := []
    currentPhase := .driving }

/-- `countedEdits < nextCheckpointAt` where `none` is `Infinity`. -/
def ltCheckpoint (countedEdits : Nat) : Option Nat → Bool
  | none => true
  | some n => countedEdits < n

/-- `onEvent` of `createDriverExecutionTracker` (later orchestrator version,
extracted tracker). Returns the new state and `some phase` exactly when the
`onCheckpoint` callback fires (carrying the current phase). -/
def trackerStep (pauseStrategy : PauseStrategy) (s : TrackerState) (event : AgentEvent) :
    TrackerState × Option Phase :=
  match event with
  | .tool_execution_start toolCallId toolName args =>
    if toolName == "edit" || toolName == "write" then
      ({ s with pendingWriteEstimates :=
          mapSet s.pendingWriteEstimates toolCallId (estimateWrittenBytes toolName args) }, none)
    else (s, none)
  | .other => (s, none)
  | .tool_execution_end toolCallId toolName isError =>
    match pauseStrategy with
    | .noneMode =>
      if !isError && (toolName == "edit" || toolName == "write") then
        ({ s with
            editWriteCallCount := s.editWriteCallCount + 1
            estimatedWrittenBytes :=
              s.estimatedWrittenBytes + (mapGet s.pendingWriteEstimates toolCallId).getD 0
            pendingWriteEstimates := mapDelete s.pendingWriteEstimates toolCallId }, none)
      else (s, none)
    | .every_n_file_edits editsPerPause countedTools =>
      let s :=
        if toolName == "edit" || toolName == "write" then
          let s :=
            if !isError then
              { s with
                  editWriteCallCount := s.editWriteCallCount + 1
                  estimatedWrittenBytes :=
                    s.estimatedWrittenBytes + (mapGet s.pendingWriteEstimates toolCallId).getD 0 }
            else s
          { s with pendingWriteEstimates := mapDelete s.pendingWriteEstimates toolCallId }
        else s
      if isError then (s, none)
      else if !(countedTools.contains toolName) then (s, none)
      else
        let s := { s with countedEdits := s.countedEdits + 1 }
        if ltCheckpoint s.countedEdits s.nextCheckpointAt then (s, none)
        else
          ({ s with
              pauseTriggered := true
              checkpointCount := s.checkpointCount + 1
              nextCheckpointAt := (s.nextCheckpointAt.map (· + editsPerPause)) },
            some s.currentPhase)

/-- `setPhase`. -/
def trackerSetPhase (s : TrackerState) (phase : Phase) : TrackerState :=
  { s with currentPhase := phase }

/-- Run the tracker over a list of observed events (the callback side effects
are dropped; they do not feed back into the tracker state). -/
def runTracker (pauseStrategy : PauseStrategy) (s : TrackerState) (events : List AgentEvent) :
    TrackerState :=
  events.foldl (fun st e => (trackerStep pauseStrategy st e).1) s

/-! ## C1: checkpoint arithmetic -/

/-- An event of the shape claim C1 quantifies over: a `tool_execution_end` that
either errored or names a counted tool. -/
def c1Event (countedTools : List String) : AgentEvent → Bool
  | .tool_execution_end _ toolName isError => isError || countedTools.contains toolName
  | _ => false

/-- `1` for a successful `tool_execution_end`, `0` otherwise. -/
def succIncr : AgentEvent → Nat
  | .tool_execution_end _ _ isError => if isError then 0 else 1
  | _ => 0

/-- Number of successful `tool_execution_end` events in a sequence. -/
def countSuccessfulEnds (events : List AgentEvent) : Nat :=
  (events.map succIncr).sum

/-! ## Round results, contributions, summary (src `types.ts` and orchestrator) -/

/-- `AgentId | "system"`, the actor of a shared-journal entry. -/
inductive Actor
  | agent (id : AgentId)
  | system
deriving DecidableEq

def agentName : AgentId → String
  | .A => "A"
  | .B => "B"

structure RoundResult where
  round : Nat
  driver : AgentId
  navigator : AgentId
  pauseTriggered : Bool
  checkpointCount : Nat
  editWriteCallCount : Nat
  estimatedWrittenBytes : Nat
  driverReport : DriverReport
  navigatorReview : NavigatorReview
  driverDecision : Option DriverDecision
deriving DecidableEq

/-- `ContributionSummary` from src `types.ts`; the percentage is exact rational
arithmetic standing for the JS number. -/
structure ContributionSummary where
  agent : AgentId
  estimatedWrittenBytes : Nat
  editWriteCallCount : Nat
  roundsDriven : Nat
  checkpointsWhileDriving : Nat
  roughCodeSharePercent : ℚ
deriving DecidableEq

/-- src orchestrator `contributionTemplate`. -/
def contributionTemplate (agent : AgentId) : ContributionSummary :=
  { agent,
    estimatedWrittenBytes := 0
    editWriteCallCount := 0
    roundsDriven := 0
    checkpointsWhileDriving := 0
    roughCodeSharePercent := 0 }

/-- JS `Math.round` on a nonnegative value: `⌊x + 1/2⌋`. -/
def jsRound (x : ℚ) : ℤ := ⌊x + 1 / 2⌋

/-- src orchestrator `roundPercent`: `Math.round(value * 10) / 10`. -/
def roundPercent (value : ℚ) : ℚ := (jsRound (value * 10) : ℚ) / 10

structure RunSummary where
  checkpointCount : Nat
  swapCount : Nat
  totalEstimatedWrittenBytes : Nat
  contributionA : ContributionSummary
  contributionB : ContributionSummary
deriving DecidableEq

/-- src orchestrator (later version) `buildSummary`: computes the rough
code-share percentages and assembles the `RunSummary`. -/
def buildSummary (contribA contribB : ContributionSummary) (checkpointCount swapCount : Nat) :
    RunSummary :=
  let totalEstimatedWrittenBytes := contribA.estimatedWrittenBytes + contribB.estimatedWrittenBytes
  if totalEstimatedWrittenBytes > 0 then
    let shareA := roundPercent ((contribA.estimatedWrittenBytes : ℚ) / (totalEstimatedWrittenBytes : ℚ) * 100)
    let shareB := roundPercent ((contribB.estimatedWrittenBytes : ℚ) / (totalEstimatedWrittenBytes : ℚ) * 100)
    { checkpointCount, swapCount, totalEstimatedWrittenBytes,
      contributionA := { contribA with roughCodeSharePercent := shareA },
      contributionB := { contribB with roughCodeSharePercent := shareB } }
  else
    let totalDrivenRounds := contribA.roundsDriven + contribB.roundsDriven
    if totalDrivenRounds > 0 then
      let shareA := roundPercent ((contribA.roundsDriven : ℚ) / (totalDrivenRounds : ℚ) * 100)
      let shareB := roundPercent ((contribB.roundsDriven : ℚ) / (totalDrivenRounds : ℚ) * 100)
      { checkpointCount, swapCount, totalEstimatedWrittenBytes,
        contributionA := { contribA with roughCodeSharePercent := shareA },
        contributionB := { contribB with roughCodeSharePercent := shareB } }
    else
      { checkpointCount, swapCount, totalEstimatedWrittenBytes,
        contributionA := { contribA with roughCodeSharePercent := 0 },
        contributionB := { contribB with roughCodeSharePercent := 0 } }

/-! ## Turn policy engine (src orchestrator `shouldSwapDriver`, identical in
both orchestrator versions) -/

structure SwapDecision where
  swap : Bool
  reason : String
deriving DecidableEq

/-- src orchestrator `shouldSwapDriver`. -/
def shouldSwapDriver (turnPolicy : TurnPolicy) (result : RoundResult)
    (consecutiveRoundsWithDriver consecutiveCheckpointsWithDriver : Nat) : SwapDecision :=
  match turnPolicy with
  | .alternate_each_round => { swap := true, reason := "alternate_each_round" }
  | .same_driver_until_navigator_signoff maxConsecutiveRounds maxConsecutiveCheckpoints =>
    if result.navigatorReview.driverRecommendation == "handoff" then
      { swap := true, reason := "navigator_requested_handoff" }
    else if consecutiveRoundsWithDriver ≥ maxConsecutiveRounds then
      { swap := true, reason := "safety_cap_rounds_" ++ toString maxConsecutiveRounds }
    else if consecutiveCheckpointsWithDriver ≥ maxConsecutiveCheckpoints then
      { swap := true, reason := "safety_cap_checkpoints_" ++ toString maxConsecutiveCheckpoints }
    else { swap := false, reason := "continue_same_driver" }

/-! ## Paired-turns execution loop (src orchestrator, later version,
`runPairedExecution`)

The per-round worker interaction (`runRound`) is abstracted as a `roundFn`
oracle producing the round's `RoundResult` and its shared-journal broadcasts;
journal entries are recorded without timestamps (`JEntry`), timestamps being
attached afterwards from an explicit clock (`stampJournal`).
`consultedSwapDecisions` is a ghost trace recording each `shouldSwapDriver`
consultation, at the exact program point where the source calls it. -/

/-- A shared-journal entry before timestamping. -/
structure JEntry where
  stage : String
  actor : Actor
  content : String
deriving DecidableEq

/-- `SharedEntry` from src `types.ts`. -/
structure SharedEntry where
  stage : String
  actor : Actor
  content : String
  timestamp : Nat
deriving DecidableEq

/-- Attach timestamps to journal entries from a clock indexed by entry position
(the source stamps each entry with `Date.now()` at append time). -/
def stampJournal (clock : Nat → Nat) (entries : List JEntry) : List SharedEntry :=
  (entries.zip (List.range entries.length)).map
    (fun p => { stage := p.1.stage, actor := p.1.actor, content := p.1.content
                timestamp := clock p.2 })

structure LoopState where
  rounds : List RoundResult
  driverId : AgentId
  consecutiveRoundsWithDriver : Nat
  consecutiveCheckpointsWithDriver : Nat
  swapCount : Nat
  checkpointCount : Nat
  contribA : ContributionSummary
  contribB : ContributionSummary
  journal : List JEntry
  consultedSwapDecisions : List SwapDecision
deriving DecidableEq

def loopInit (driverStartsAs : AgentId) : LoopState :=
  { rounds := []
    driverId := driverStartsAs
    consecutiveRoundsWithDriver := 0
    consecutiveCheckpointsWithDriver := 0
    swapCount := 0
    checkpointCount := 0
    contribA := contributionTemplate .A
    contribB := contributionTemplate .B
    journal := []
    consultedSwapDecisions := [] }

/-- `contributions[driverId].… += …` keyed access. -/
def updateContrib (s : LoopState) (driverId : AgentId)
    (f : ContributionSummary → ContributionSummary) : LoopState :=
  match driverId with
  | .A => { s with contribA := f s.contribA }
  | .B => { s with contribB := f s.contribB }

/-- The per-round accumulation block of `runPairedExecution` (after
`runRound` returns). -/
def accumulateRound (s : LoopState) (result : RoundResult) : LoopState :=
  let s := { s with
    rounds := s.rounds ++ [result]
    checkpointCount := s.checkpointCount + result.checkpointCount
    consecutiveRoundsWithDriver := s.consecutiveRoundsWithDriver + 1
    consecutiveCheckpointsWithDriver := s.consecutiveCheckpointsWithDriver + result.checkpointCount }
  updateContrib s s.driverId (fun c => { c with
    roundsDriven := c.roundsDriven + 1
    checkpointsWhileDriving := c.checkpointsWhileDriving + result.checkpointCount
    editWriteCallCount := c.editWriteCallCount + result.editWriteCallCount
    estimatedWrittenBytes := c.estimatedWrittenBytes + result.estimatedWrittenBytes })

/-- The `for (let round = 1; round <= maxRounds; …)` loop of
`runPairedExecution`. `fuel` is the termination measure, maintained as
`maxRounds + 1 - round` so the loop guard is mirrored by fuel exhaustion. -/
def pairedLoopAux (maxRounds : Nat) (turnPolicy : TurnPolicy)
    (roundFn : Nat → AgentId → RoundResult × List JEntry) :
    Nat → Nat → LoopState → LoopState
  | 0, _, s => s
  | fuel + 1, round, s =>
    let result := (roundFn round s.driverId).1
    let roundEntries := (roundFn round s.driverId).2
    let s := accumulateRound { s with journal := s.journal ++ roundEntries } result
    let shouldStop := result.driverReport.status == "done" && !result.navigatorReview.hasFeedback
    if shouldStop then
      { s with journal := s.journal ++ [⟨"loop_stop", .system,
          "Stopped at round " ++ toString round ++
            " because driver signaled done and navigator had no feedback."⟩] }
    else if round == maxRounds then
      { s with journal := s.journal ++ [⟨"loop_stop", .system,
          "Reached max rounds (" ++ toString maxRounds ++ ")."⟩] }
    else
      let swapDecision := shouldSwapDriver turnPolicy result
        s.consecutiveRoundsWithDriver s.consecutiveCheckpointsWithDriver
      let s := { s with consultedSwapDecisions := s.consultedSwapDecisions ++ [swapDecision] }
      let s :=
        if swapDecision.swap then
          { s with
            driverId := otherAgent s.driverId
            swapCount := s.swapCount + 1
            consecutiveRoundsWithDriver := 0
            consecutiveCheckpointsWithDriver := 0
            journal := s.journal ++ [⟨"driver_swap", .system,
              "Swapped driver from " ++ agentName s.driverId ++ " to " ++
                agentName (otherAgent s.driverId) ++ ". Reason: " ++ swapDecision.reason ++ "."⟩] }
        else s
      pairedLoopAux maxRounds turnPolicy roundFn fuel (round + 1) s

/-- `runPairedExecution`'s loop from its initial state. -/
def runPairedLoop (maxRounds : Nat) (turnPolicy : TurnPolicy) (driverStartsAs : AgentId)
    (roundFn : Nat → AgentId → RoundResult × List JEntry) : LoopState :=
  pairedLoopAux maxRounds turnPolicy roundFn maxRounds 1 (loopInit driverStartsAs)

/-! ## Session observer (src `observability.ts`, `SessionObserver`)

`record`/`flush` are embedded as state transformers; `Date.now()` is an
explicit `now` argument; the durable event-stream file is the ordered
`streamLines` list; the final session-log write is captured by the returned
summary. A `LogEvent`'s `details` is restricted to the one field `flush`
inspects, `Boolean(details?.isError)`. -/

structure LogEvent where
  index : Nat
  timestamp : Nat
  category : String
  name : String
  detailsIsError : Bool
deriving DecidableEq

inductive StreamLine
  | metaStart (timestamp : Nat)
  | event (e : LogEvent)
  | metaEnd (timestamp : Nat) (status : String) (errorMessage : Option String)
deriving DecidableEq

structure ObservabilitySummary where
  logFile : String
  eventStreamFile : Option String
  eventStreamMode : String
  eventStreamWriteError : Option String
  eventCount : Nat
  promptCount : Nat
  toolExecutionCount : Nat
  toolExecutionErrorCount : Nat
  durationMs : Int
deriving DecidableEq

structure ObserverState where
  startedAt : Nat
  events : List LogEvent
  eventStreamMode : String
  eventIndex : Nat
  flushedSummary : Option ObservabilitySummary
  streamLines : List StreamLine
  eventStreamWriteError : Option String
  logFile : String
  eventLogFile : Option String
deriving DecidableEq

/-- `SessionObserver.shouldStreamEvent`. -/
def shouldStreamEvent (mode : String) (e : LogEvent) : Bool :=
  if mode == "full" then true
  else if e.category == "agent_event" && e.name == "message_update" then false
  else true

/-- `SessionObserver.queueEventStreamLine`. -/
def queueEventStreamLine (st : ObserverState) (line : StreamLine) : ObserverState :=
  if st.eventLogFile.isNone || st.eventStreamWriteError.isSome then st
  else { st with streamLines := st.streamLines ++ [line] }

/-- `SessionObserver.record`. -/
def observerRecord (st : ObserverState) (now : Nat) (category name : String)
    (detailsIsError : Bool) : ObserverState :=
  match st.flushedSummary with
  | some _ => st
  | none =>
    let renderedEvent : LogEvent :=
      { index := st.eventIndex, timestamp := now, category, name, detailsIsError }
    let st := { st with events := st.events ++ [renderedEvent], eventIndex := st.eventIndex + 1 }
    if shouldStreamEvent st.eventStreamMode renderedEvent then
      queueEventStreamLine st (.event renderedEvent)
    else st

/-- `SessionObserver.flush`. -/
def observerFlush (st : ObserverState) (now : Nat) (status : String)
    (errorMessage : Option String) : ObservabilitySummary × ObserverState :=
  match st.flushedSummary with
  | some s => (s, st)
  | none =>
    let endedAt := now
    let durationMs : Int := (endedAt : Int) - (st.startedAt : Int)
    let promptCount :=
      (st.events.filter (fun e => e.category == "prompt" && e.name == "prompt_start")).length
    let toolEnds :=
      st.events.filter (fun e => e.category == "agent_event" && e.name == "tool_execution_end")
    let toolExecutionCount := toolEnds.length
    let toolExecutionErrorCount := (toolEnds.filter (fun e => e.detailsIsError)).length
    let st := queueEventStreamLine st (.metaEnd endedAt status errorMessage)
    let summary : ObservabilitySummary :=
      { logFile := st.logFile
        eventStreamFile := st.eventLogFile
        eventStreamMode := st.eventStreamMode
        eventStreamWriteError := st.eventStreamWriteError
        eventCount := st.events.length
        promptCount, toolExecutionCount, toolExecutionErrorCount, durationMs }
    (summary, { st with flushedSummary := some summary })

/-! ## Session run (src orchestrator `run`, later version)

`run` is a `try`/`catch`/`finally` pipeline: planning, execution, final review,
summary; worker interactions are abstracted as `Except`-returning steps (a
`ModelWorker.runPrompt` that sees an `error`/`aborted` stop reason throws).
`flushCalls` is the ordered trace of `observer.flush` invocations the
`finally` block performs. -/

structure FinalReview where
  reviewA : NavigatorReview
  reviewB : NavigatorReview
  jointVerdict : String
  rationale : String
  nextSteps : String
  raw : String
deriving DecidableEq

/-- The result of the execution phase (`runPairedExecution` /
`runSoloDriverThenReviewerExecution`): `finalReview` is `some` only in solo
mode, mirroring `ExecutionResult.finalReview`. -/
structure ExecutionResultM where
  rounds : List RoundResult
  checkpointCount : Nat
  swapCount : Nat
  contribA : ContributionSummary
  contribB : ContributionSummary
  journal : List JEntry
  finalReview : Option FinalReview
deriving DecidableEq

structure PairRunResultM where
  task : String
  agreedPlan : String
  rounds : List RoundResult
  finalReview : FinalReview
  summary : RunSummary
  sharedJournal : List JEntry
  observability : Option ObservabilitySummary
deriving DecidableEq

/-- The outcome of `run`: its return-or-throw, plus the trace of
`observer.flush(status, failureMessage)` calls made in the `finally` block. -/
structure RunOutcome where
  result : Except String PairRunResultM
  flushCalls : List (String × Option String)

/-- The three fallible phases of `run`, abstracted over the model workers:
`planning` yields the agreed plan, `execution` the execution result, and
`finalReviewStep` the final review (used only when the execution itself did
not synthesize one). -/
structure RunSteps where
  planning : Except String String
  execution : String → Except String ExecutionResultM
  finalReviewStep : String → Except String FinalReview

/-- The first error thrown during planning, execution, or final review. -/
def firstError (steps : RunSteps) : Option String :=
  match steps.planning with
  | .error e => some e
  | .ok agreedPlan =>
    match steps.execution agreedPlan with
    | .error e => some e
    | .ok execution =>
      match execution.finalReview with
      | some _ => none
      | none =>
        match steps.finalReviewStep agreedPlan with
        | .error e => some e
        | .ok _ => none

/-- src orchestrator `run` (later version): try planning → execution →
final review → summary, catch re-raises, finally flushes the observer. -/
def runModel (task : String) (steps : RunSteps) (obs : Option ObserverState) (now : Nat) :
    RunOutcome :=
  let flushTrace := fun (status : String) (failureMessage : Option String) =>
    match obs with
    | some _ => [(status, failureMessage)]
    | none => ([] : List (String × Option String))
  match steps.planning with
  | .error e => { result := .error e, flushCalls := flushTrace "failed" (some e) }
  | .ok agreedPlan =>
    match steps.execution agreedPlan with
    | .error e => { result := .error e, flushCalls := flushTrace "failed" (some e) }
    | .ok execution =>
      match (match execution.finalReview with
             | some fr => Except.ok fr
             | none => steps.finalReviewStep agreedPlan) with
      | .error e => { result := .error e, flushCalls := flushTrace "failed" (some e) }
      | .ok finalReview =>
        let summary := buildSummary execution.contribA execution.contribB
          execution.checkpointCount execution.swapCount
        { result := .ok
            { task, agreedPlan
              rounds := execution.rounds
              finalReview, summary
              sharedJournal := execution.journal
              observability := obs.map (fun o => (observerFlush o now "completed" none).1) }
          flushCalls := flushTrace "completed" none }

/-! ## CLI parsing (src `cli.ts`, `parseCli` and its helpers) -/

structure ModelSpecM where
  provider : String
  modelId : String
  thinkingLevel : String
deriving DecidableEq

structure PairAgentConfigM where
  cwd : String
  maxRounds : Nat
  driverStartsAs : AgentId
  pauseStrategy : PauseStrategy
  turnPolicy : TurnPolicy
  modelA : ModelSpecM
  modelB : ModelSpecM
deriving DecidableEq

structure CliConfigM where
  task : String
  outputPath : Option String
  logFile : Option String
  eventLogFile : Option String
  eventStreamMode : String
  workspaceMode : String
  keepWorkspace : Bool
  pair : PairAgentConfigM
deriving DecidableEq

/-- `node:path` `resolve`, treated as the identity on already-absolute inputs;
path normalization never feeds back into the parsing logic. -/
def resolvePath (p : String) : String := p

/-- src `cli.ts` `defaultPauseStrategy`. -/
def defaultPauseStrategy : PauseStrategy := .every_n_file_edits 3 ["edit", "write"]

/-- src `cli.ts` `defaultEveryNFileEditsPause`. -/
def defaultEveryNFileEditsPause : PauseStrategy := .every_n_file_edits 3 ["edit", "write"]

/-- src `cli.ts` `defaultTurnPolicy`. -/
def defaultTurnPolicy : TurnPolicy := .same_driver_until_navigator_signoff 3 4

/-- src `cli.ts` `defaultStickyTurnPolicy`: 3 consecutive rounds, 4 consecutive
checkpoints. -/
def defaultStickyTurnPolicy : TurnPolicy := .same_driver_until_navigator_signoff 3 4

/-- src `cli.ts` `defaultPairConfig`. -/
def defaultPairConfig (cwd : String) : PairAgentConfigM :=
  { cwd
    maxRounds := 8
    driverStartsAs := .A
    pauseStrategy := defaultPauseStrategy
    turnPolicy := defaultTurnPolicy
    modelA := { provider := "anthropic", modelId := "claude-opus-4-6", thinkingLevel := "high" }
    modelB := { provider := "openai", modelId := "gpt-5.2-codex", thinkingLevel := "high" } }

/-- src `cli.ts` `helpText` (the joined usage text, thrown on `--help`; no
claim inspects its content). -/
def helpText : String := "Pairing Bots CLI usage"

/-- Value of a leading run of decimal digits; `none` when the first character
is not a digit (JS `parseInt` NaN). -/
def digitPrefixVal (cs : List Char) : Option Nat :=
  match cs with
  | c :: _ =>
    if c.isDigit then
      some ((cs.takeWhile Char.isDigit).foldl (fun a d => a * 10 + (d.toNat - 48)) 0)
    else none
  | [] => none

/-- JS `Number.parseInt(value, 10)`: skip leading whitespace, optional sign,
longest decimal-digit prefix; `none` is NaN. -/
def jsParseInt10 (s : String) : Option Int :=
  let cs := s.data.dropWhile isJsSpace
  match cs with
  | '+' :: rest => (digitPrefixVal rest).map (fun n => (n : Int))
  | '-' :: rest => (digitPrefixVal rest).map (fun n => -(n : Int))
  | _ => (digitPrefixVal cs).map (fun n => (n : Int))

/-- src `cli.ts` `parsePositiveInteger`. -/
def parsePositiveInteger (name value : String) : Except String Nat :=
  match jsParseInt10 value with
  | none => .error (name ++ " must be a positive integer. Received: " ++ value)
  | some parsed =>
    if parsed ≤ 0 then .error (name ++ " must be a positive integer. Received: " ++ value)
    else .ok parsed.toNat

/-- src `cli.ts` `ALLOWED_THINKING`. -/
def ALLOWED_THINKING : List String := ["off", "minimal", "low", "medium", "high", "xhigh"]

/-- src `cli.ts` `parseThinking`. -/
def parseThinking (value : String) : Except String String :=
  if ALLOWED_THINKING.contains value then .ok value
  else .error ("Invalid thinking level: " ++ value)

/-- src `cli.ts` `parseAgentId`. -/
def parseAgentId (value : String) : Except String AgentId :=
  if value == "A" then .ok .A
  else if value == "B" then .ok .B
  else .error ("Invalid agent id: " ++ value ++ ". Use A or B.")

/-- src `cli.ts` `parseWorkspaceMode`. -/
def parseWorkspaceMode (value : String) : Except String String :=
  if value == "direct" || value == "ephemeral_copy" then .ok value
  else .error ("Invalid --workspace-mode: " ++ value)

/-- src `cli.ts` `parseEventStreamMode`. -/
def parseEventStreamMode (value : String) : Except String String :=
  if value == "compact" || value == "full" then .ok value
  else .error ("Invalid --event-stream-mode: " ++ value)

/-- The mutable locals of `parseCli` (the `pair` config under construction plus
the standalone option locals). -/
structure CliAcc where
  pair : PairAgentConfigM
  task : String
  outputPath : Option String
  logFile : Option String
  eventLogFile : Option String
  eventStreamMode : String
  workspaceMode : String
  keepWorkspace : Bool
deriving DecidableEq

def cliInit (processCwd : String) : CliAcc :=
  { pair := defaultPairConfig (resolvePath processCwd)
    task := ""
    outputPath := none
    logFile := none
    eventLogFile := none
    eventStreamMode := "compact"
    workspaceMode := "direct"
    keepWorkspace := false }

/-- The `switch (arg)` of `parseCli`: every case consumes the value `next`. -/
def applyFlag (arg next : String) (acc : CliAcc) : Except String CliAcc :=
  if arg == "--task" then .ok { acc with task := jsTrim next }
  else if arg == "--cwd" then .ok { acc with pair := { acc.pair with cwd := resolvePath next } }
  else if arg == "--max-rounds" then
    match parsePositiveInteger "--max-rounds" next with
    | .ok n => .ok { acc with pair := { acc.pair with maxRounds := n } }
    | .error e => .error e
  else if arg == "--driver-start" then
    match parseAgentId next with
    | .ok a => .ok { acc with pair := { acc.pair with driverStartsAs := a } }
    | .error e => .error e
  else if arg == "--turn-policy" then
    if next == "alternate_each_round" then
      .ok { acc with pair := { acc.pair with turnPolicy := .alternate_each_round } }
    else if next == "same_driver_until_navigator_signoff" then
      let previous :=
        match acc.pair.turnPolicy with
        | .same_driver_until_navigator_signoff r c => (r, c)
        | .alternate_each_round => (3, 4)
      .ok { acc with pair := { acc.pair with
        turnPolicy := .same_driver_until_navigator_signoff previous.1 previous.2 } }
    else .error ("Invalid --turn-policy: " ++ next)
  else if arg == "--max-consecutive-rounds" then
    let acc :=
      match acc.pair.turnPolicy with
      | .alternate_each_round =>
        { acc with pair := { acc.pair with turnPolicy := defaultStickyTurnPolicy } }
      | _ => acc
    match acc.pair.turnPolicy with
    | .same_driver_until_navigator_signoff _ c =>
      match parsePositiveInteger "--max-consecutive-rounds" next with
      | .ok n => .ok { acc with pair := { acc.pair with
          turnPolicy := .same_driver_until_navigator_signoff n c } }
      | .error e => .error e
    | .alternate_each_round => .ok acc
  else if arg == "--max-consecutive-checkpoints" then
    let acc :=
      match acc.pair.turnPolicy with
      | .alternate_each_round =>
        { acc with pair := { acc.pair with turnPolicy := defaultStickyTurnPolicy } }
      | _ => acc
    match acc.pair.turnPolicy with
    | .same_driver_until_navigator_signoff r _ =>
      match parsePositiveInteger "--max-consecutive-checkpoints" next with
      | .ok n => .ok { acc with pair := { acc.pair with
          turnPolicy := .same_driver_until_navigator_signoff r n } }
      | .error e => .error e
    | .alternate_each_round => .ok acc
  else if arg == "--pause-mode" then
    if next == "none" then .ok { acc with pair := { acc.pair with pauseStrategy := .noneMode } }
    else if next == "every_n_file_edits" then
      let previous :=
        match acc.pair.pauseStrategy with
        | .every_n_file_edits e t => (e, t)
        | .noneMode => (3, ["edit", "write"])
      .ok { acc with pair := { acc.pair with
        pauseStrategy := .every_n_file_edits previous.1 previous.2 } }
    else .error ("Invalid --pause-mode: " ++ next)
  else if arg == "--edits-per-pause" then
    let acc :=
      match acc.pair.pauseStrategy with
      | .noneMode =>
        { acc with pair := { acc.pair with pauseStrategy := defaultEveryNFileEditsPause } }
      | _ => acc
    match acc.pair.pauseStrategy with
    | .every_n_file_edits _ t =>
      match parsePositiveInteger "--edits-per-pause" next with
      | .ok n => .ok { acc with pair := { acc.pair with
          pauseStrategy := .every_n_file_edits n t } }
      | .error e => .error e
    | .noneMode => .ok acc
  else if arg == "--model-a-provider" then
    .ok { acc with pair := { acc.pair with modelA := { acc.pair.modelA with provider := next } } }
  else if arg == "--model-a-id" then
    .ok { acc with pair := { acc.pair with modelA := { acc.pair.modelA with modelId := next } } }
  else if arg == "--model-a-thinking" then
    match parseThinking next with
    | .ok t => .ok { acc with pair := { acc.pair with
        modelA := { acc.pair.modelA with thinkingLevel := t } } }
    | .error e => .error e
  else if arg == "--model-b-provider" then
    .ok { acc with pair := { acc.pair with modelB := { acc.pair.modelB with provider := next } } }
  else if arg == "--model-b-id" then
    .ok { acc with pair := { acc.pair with modelB := { acc.pair.modelB with modelId := next } } }
  else if arg == "--model-b-thinking" then
    match parseThinking next with
    | .ok t => .ok { acc with pair := { acc.pair with
        modelB := { acc.pair.modelB with thinkingLevel := t } } }
    | .error e => .error e
  else if arg == "--output" then .ok { acc with outputPath := some (resolvePath next) }
  else if arg == "--log-file" then .ok { acc with logFile := some (resolvePath next) }
  else if arg == "--event-log-file" then .ok { acc with eventLogFile := some (resolvePath next) }
  else if arg == "--event-stream-mode" then
    match parseEventStreamMode next with
    | .ok m => .ok { acc with eventStreamMode := m }
    | .error e => .error e
  else if arg == "--workspace-mode" then
    match parseWorkspaceMode next with
    | .ok m => .ok { acc with workspaceMode := m }
    | .error e => .error e
  else .error ("Unknown argument: " ++ arg)

/-- JS `String.prototype.startsWith` (`arg.startsWith("--")`). -/
def jsStartsWith (s pre : String) : Bool := pre.data.isPrefixOf s.data

/-- The `for (let i = 0; …)` argument loop of `parseCli`: skip falsy/non-flag
tokens, throw on `--help`, handle `--keep-workspace` in place, and otherwise
consume a flag together with its value. -/
def parseCliLoop : CliAcc → List String → Except String CliAcc
  | acc, [] => .ok acc
  | acc, arg :: rest =>
    if arg == "" then parseCliLoop acc rest
    else if arg == "--help" || arg == "-h" then .error helpText
    else if arg == "--keep-workspace" then parseCliLoop { acc with keepWorkspace := true } rest
    else if !(jsStartsWith arg "--") then parseCliLoop acc rest
    else
      match rest with
      | [] => .error ("Missing value for " ++ arg)
      | next :: rest2 =>
        if next == "" then .error ("Missing value for " ++ arg)
        else
          match applyFlag arg next acc with
          | .ok acc2 => parseCliLoop acc2 rest2
          | .error e => .error e

/-- src `cli.ts` `parseCli`. -/
def parseCli (argv : List String) (processCwd : String) : Except String CliConfigM :=
  match parseCliLoop (cliInit processCwd) argv with
  | .error e => .error e
  | .ok acc =>
    if acc.task == "" then .error ("Missing required --task argument.\n\n" ++ helpText)
    else
      .ok { task := acc.task
            outputPath := acc.outputPath
            logFile := acc.logFile
            eventLogFile := acc.eventLogFile
            eventStreamMode := acc.eventStreamMode
            workspaceMode := acc.workspaceMode
            keepWorkspace := acc.keepWorkspace
            pair := { acc.pair with cwd := resolvePath acc.pair.cwd } }

/-- The flags that select or mutate the turn policy. -/
def policyFlags : List String :=
  ["--turn-policy", "--max-consecutive-rounds", "--max-consecutive-checkpoints"]

/-! ## The two orchestrator versions (src `unnamed/part_001` = earlier,
`unnamed/part_002` = later)

The earlier orchestrator inlines the checkpoint tracker in `runRound`
(`onDriverEvent` closure) and runs the round loop directly inside `run`; the
later one extracts `createDriverExecutionTracker` (embedded above as
`trackerStep`), moves the loop into `runPairedExecution` (embedded above as
`pairedLoopAux`), and dispatches on `executionMode`. The V1 embeddings below
are transcribed from `part_001`; the per-round worker responses and tool
events are a `RoundInputs` oracle, as in the loop model. -/

/-- The worker interactions of one round: the driver-turn response and its
tool events, the navigator-review response, and (used only when the review has
feedback) the driver-decision response and its tool events. -/
structure RoundInputs where
  driverResponse : String
  driverEvents : List AgentEvent
  navigatorResponse : String
  decisionResponse : String
  decisionEvents : List AgentEvent

/-- `runRound` of the later orchestrator (part_002): extracted tracker via
`createDriverExecutionTracker` (= `trackerStep`/`runTracker`/`trackerInit`). -/
def runRoundV2 (pauseStrategy : PauseStrategy) (round : Nat) (driverId : AgentId)
    (inp : RoundInputs) : RoundResult × List JEntry :=
  let navigatorId := otherAgent driverId
  let t1 := runTracker pauseStrategy (trackerInit pauseStrategy) inp.driverEvents
  let driverReport := parseDriverReport inp.driverResponse
  let reportEntry : JEntry := ⟨"driver_report", .agent driverId,
    "Round " ++ toString round ++ "\nStatus: " ++ driverReport.status ++ "\nSummary: "
      ++ driverReport.summary ++ "\nChanges: " ++ driverReport.changes
      ++ "\nNavigator questions: " ++ driverReport.questionsForNavigator⟩
  let navigatorReview := parseNavigatorReview inp.navigatorResponse
  let feedbackEntry : JEntry := ⟨"navigator_feedback", .agent navigatorId,
    if navigatorReview.hasFeedback then navigatorReview.publicFeedback else "NONE"⟩
  let handoffEntry : JEntry := ⟨"navigator_handoff_signal", .agent navigatorId,
    navigatorReview.driverRecommendation⟩
  if navigatorReview.hasFeedback then
    let t2 := runTracker pauseStrategy (trackerSetPhase t1 .feedback_resolution) inp.decisionEvents
    let driverDecision := parseDriverDecision inp.decisionResponse
    let decisionEntry : JEntry := ⟨"driver_decision", .agent driverId,
      "Decision: " ++ driverDecision.decision ++ "\nJustification: "
        ++ driverDecision.justification⟩
    ({ round, driver := driverId, navigator := navigatorId
       pauseTriggered := t2.pauseTriggered
       checkpointCount := t2.checkpointCount
       editWriteCallCount := t2.editWriteCallCount
       estimatedWrittenBytes := t2.estimatedWrittenBytes
       driverReport, navigatorReview, driverDecision := some driverDecision },
     [reportEntry, feedbackEntry, handoffEntry, decisionEntry])
  else
    ({ round, driver := driverId, navigator := navigatorId
       pauseTriggered := t1.pauseTriggered
       checkpointCount := t1.checkpointCount
       editWriteCallCount := t1.editWriteCallCount
       estimatedWrittenBytes := t1.estimatedWrittenBytes
       driverReport, navigatorReview, driverDecision := none },
     [reportEntry, feedbackEntry, handoffEntry])

/-- The inline `onDriverEvent` closure of the earlier orchestrator's
`runRound` (part_001 lines 210-253). -/
def onDriverEventV1 (pauseStrategy : PauseStrategy) (s : TrackerState) (event : AgentEvent) :
    TrackerState × Option Phase :=
  match event with
  | .tool_execution_start toolCallId toolName args =>
    if toolName == "edit" || toolName == "write" then
      ({ s with pendingWriteEstimates :=
          mapSet s.pendingWriteEstimates toolCallId (estimateWrittenBytes toolName args) }, none)
    else (s, none)
  | .other => (s, none)
  | .tool_execution_end toolCallId toolName isError =>
    match pauseStrategy with
    | .noneMode =>
      if !isError && (toolName == "edit" || toolName == "write") then
        ({ s with
            editWriteCallCount := s.editWriteCallCount + 1
            estimatedWrittenBytes :=
              s.estimatedWrittenBytes + (mapGet s.pendingWriteEstimates toolCallId).getD 0
            pendingWriteEstimates := mapDelete s.pendingWriteEstimates toolCallId }, none)
      else (s, none)
    | .every_n_file_edits editsPerPause countedTools =>
      let s :=
        if toolName == "edit" || toolName == "write" then
          let s :=
            if !isError then
              { s with
                  editWriteCallCount := s.editWriteCallCount + 1
                  estimatedWrittenBytes :=
                    s.estimatedWrittenBytes + (mapGet s.pendingWriteEstimates toolCallId).getD 0 }
            else s
          { s with pendingWriteEstimates := mapDelete s.pendingWriteEstimates toolCallId }
        else s
      if isError then (s, none)
      else if !(countedTools.contains toolName) then (s, none)
      else
        let s := { s with countedEdits := s.countedEdits + 1 }
        if ltCheckpoint s.countedEdits s.nextCheckpointAt then (s, none)
        else
          ({ s with
              pauseTriggered := true
              checkpointCount := s.checkpointCount + 1
              nextCheckpointAt := (s.nextCheckpointAt.map (· + editsPerPause)) },
            some s.currentPhase)

def runTrackerV1 (pauseStrategy : PauseStrategy) (s : TrackerState)
    (events : List AgentEvent) : TrackerState :=
  events.foldl (fun st e => (onDriverEventV1 pauseStrategy st e).1) s

/-- `runRound` of the earlier orchestrator (part_001): inline tracker locals. -/
def runRoundV1 (pauseStrategy : PauseStrategy) (round : Nat) (driverId : AgentId)
    (inp : RoundInputs) : RoundResult × List JEntry :=
  let navigatorId := otherAgent driverId
  let initV1 : TrackerState :=
    { pauseTriggered := false
      countedEdits := 0
      nextCheckpointAt :=
        match pauseStrategy with
        | .every_n_file_edits editsPerPause _ => some editsPerPause
        | .noneMode => none
      checkpointCount := 0
      editWriteCallCount := 0
      estimatedWrittenBytes := 0
      pendingWriteEstimates := []
      currentPhase := .driving }
  let t1 := runTrackerV1 pauseStrategy initV1 inp.driverEvents
  let driverReport := parseDriverReport inp.driverResponse
  let reportEntry : JEntry := ⟨"driver_report", .agent driverId,
    "Round " ++ toString round ++ "\nStatus: " ++ driverReport.status ++ "\nSummary: "
      ++ driverReport.summary ++ "\nChanges: " ++ driverReport.changes
      ++ "\nNavigator questions: " ++ driverReport.questionsForNavigator⟩
  let navigatorReview := parseNavigatorReview inp.navigatorResponse
  let feedbackEntry : JEntry := ⟨"navigator_feedback", .agent navigatorId,
    if navigatorReview.hasFeedback then navigatorReview.publicFeedback else "NONE"⟩
  let handoffEntry : JEntry := ⟨"navigator_handoff_signal", .agent navigatorId,
    navigatorReview.driverRecommendation⟩
  if navigatorReview.hasFeedback then
    let t2 := runTrackerV1 pauseStrategy (trackerSetPhase t1 .feedback_resolution)
      inp.decisionEvents
    let driverDecision := parseDriverDecision inp.decisionResponse
    let decisionEntry : JEntry := ⟨"driver_decision", .agent driverId,
      "Decision: " ++ driverDecision.decision ++ "\nJustification: "
        ++ driverDecision.justification⟩
    ({ round, driver := driverId, navigator := navigatorId
       pauseTriggered := t2.pauseTriggered
       checkpointCount := t2.checkpointCount
       editWriteCallCount := t2.editWriteCallCount
       estimatedWrittenBytes := t2.estimatedWrittenBytes
       driverReport, navigatorReview, driverDecision := some driverDecision },
     [reportEntry, feedbackEntry, handoffEntry, decisionEntry])
  else
    ({ round, driver := driverId, navigator := navigatorId
       pauseTriggered := t1.pauseTriggered
       checkpointCount := t1.checkpointCount
       editWriteCallCount := t1.editWriteCallCount
       estimatedWrittenBytes := t1.estimatedWrittenBytes
       driverReport, navigatorReview, driverDecision := none },
     [reportEntry, feedbackEntry, handoffEntry])

/-- The round loop of the earlier orchestrator, inline in its `run`
(part_001 lines 482-546); the body coincides with `runPairedExecution`'s. -/
def pairedLoopAuxV1 (maxRounds : Nat) (turnPolicy : TurnPolicy)
    (roundFn : Nat → AgentId → RoundResult × List JEntry) :
    Nat → Nat → LoopState → LoopState
  | 0, _, s => s
  | fuel + 1, round, s =>
    let result := (roundFn round s.driverId).1
    let roundEntries := (roundFn round s.driverId).2
    let s := accumulateRound { s with journal := s.journal ++ roundEntries } result
    let shouldStop := result.driverReport.status == "done" && !result.navigatorReview.hasFeedback
    if shouldStop then
      { s with journal := s.journal ++ [⟨"loop_stop", .system,
          "Stopped at round " ++ toString round ++
            " because driver signaled done and navigator had no feedback."⟩] }
    else if round == maxRounds then
      { s with journal := s.journal ++ [⟨"loop_stop", .system,
          "Reached max rounds (" ++ toString maxRounds ++ ")."⟩] }
    else
      let swapDecision := shouldSwapDriver turnPolicy result
        s.consecutiveRoundsWithDriver s.consecutiveCheckpointsWithDriver
      let s := { s with consultedSwapDecisions := s.consultedSwapDecisions ++ [swapDecision] }
      let s :=
        if swapDecision.swap then
          { s with
            driverId := otherAgent s.driverId
            swapCount := s.swapCount + 1
            consecutiveRoundsWithDriver := 0
            consecutiveCheckpointsWithDriver := 0
            journal := s.journal ++ [⟨"driver_swap", .system,
              "Swapped driver from " ++ agentName s.driverId ++ " to " ++
                agentName (otherAgent s.driverId) ++ ". Reason: " ++ swapDecision.reason ++ "."⟩] }
        else s
      pairedLoopAuxV1 maxRounds turnPolicy roundFn fuel (round + 1) s

/-- `buildSummary` of the earlier orchestrator (part_001 lines 364-391). -/
def buildSummaryV1 (contribA contribB : ContributionSummary) (checkpointCount swapCount : Nat) :
    RunSummary :=
  let totalEstimatedWrittenBytes := contribA.estimatedWrittenBytes + contribB.estimatedWrittenBytes
  if totalEstimatedWrittenBytes > 0 then
    let shareA := roundPercent ((contribA.estimatedWrittenBytes : ℚ) / (totalEstimatedWrittenBytes : ℚ) * 100)
    let shareB := roundPercent ((contribB.estimatedWrittenBytes : ℚ) / (totalEstimatedWrittenBytes : ℚ) * 100)
    { checkpointCount, swapCount, totalEstimatedWrittenBytes,
      contributionA := { contribA with roughCodeSharePercent := shareA },
      contributionB := { contribB with roughCodeSharePercent := shareB } }
  else
    let totalDrivenRounds := contribA.roundsDriven + contribB.roundsDriven
    if totalDrivenRounds > 0 then
      let shareA := roundPercent ((contribA.roundsDriven : ℚ) / (totalDrivenRounds : ℚ) * 100)
      let shareB := roundPercent ((contribB.roundsDriven : ℚ) / (totalDrivenRounds : ℚ) * 100)
      { checkpointCount, swapCount, totalEstimatedWrittenBytes,
        contributionA := { contribA with roughCodeSharePercent := shareA },
        contributionB := { contribB with roughCodeSharePercent := shareB } }
    else
      { checkpointCount, swapCount, totalEstimatedWrittenBytes,
        contributionA := { contribA with roughCodeSharePercent := 0 },
        contributionB := { contribB with roughCodeSharePercent := 0 } }

/-- `collaborativePlanning` (later orchestrator): worker responses are inputs,
outputs the agreed plan and the three broadcasts. -/
def collaborativePlanningModel (aDraftRaw bFeedbackRaw aFinalRaw : String) :
    String × List JEntry :=
  let aDraft := jsTrim aDraftRaw
  let bFeedback := jsTrim bFeedbackRaw
  let agreedPlan := jsTrim aFinalRaw
  (agreedPlan,
    [⟨"plan_draft", .agent .A, aDraft⟩,
     ⟨"plan_feedback", .agent .B, bFeedback⟩,
     ⟨"plan_agreed", .agent .A, agreedPlan⟩])

/-- `collaborativePlanning` of the earlier orchestrator (identical code). -/
def collaborativePlanningModelV1 (aDraftRaw bFeedbackRaw aFinalRaw : String) :
    String × List JEntry :=
  let aDraft := jsTrim aDraftRaw
  let bFeedback := jsTrim bFeedbackRaw
  let agreedPlan := jsTrim aFinalRaw
  (agreedPlan,
    [⟨"plan_draft", .agent .A, aDraft⟩,
     ⟨"plan_feedback", .agent .B, bFeedback⟩,
     ⟨"plan_agreed", .agent .A, agreedPlan⟩])

/-- `finalReview` (later orchestrator): both review responses and the
synthesis response are inputs. -/
def finalReviewModel (reviewARaw reviewBRaw synthesisRaw : String) :
    FinalReview × List JEntry :=
  let reviewA := parseNavigatorReview reviewARaw
  let reviewB := parseNavigatorReview reviewBRaw
  let synthesis := parseJointVerdict synthesisRaw
  ({ reviewA, reviewB
     jointVerdict := synthesis.jointVerdict
     rationale := synthesis.rationale
     nextSteps := synthesis.nextSteps
     raw := synthesis.raw },
   [⟨"final_review_A", .agent .A, reviewA.publicFeedback⟩,
    ⟨"final_review_B", .agent .B, reviewB.publicFeedback⟩,
    ⟨"joint_verdict", .agent .A,
      "Verdict: " ++ synthesis.jointVerdict ++ "\nRationale: " ++ synthesis.rationale
        ++ "\nNext steps: " ++ synthesis.nextSteps⟩])

/-- `finalReview` of the earlier orchestrator (identical code). -/
def finalReviewModelV1 (reviewARaw reviewBRaw synthesisRaw : String) :
    FinalReview × List JEntry :=
  let reviewA := parseNavigatorReview reviewARaw
  let reviewB := parseNavigatorReview reviewBRaw
  let synthesis := parseJointVerdict synthesisRaw
  ({ reviewA, reviewB
     jointVerdict := synthesis.jointVerdict
     rationale := synthesis.rationale
     nextSteps := synthesis.nextSteps
     raw := synthesis.raw },
   [⟨"final_review_A", .agent .A, reviewA.publicFeedback⟩,
    ⟨"final_review_B", .agent .B, reviewB.publicFeedback⟩,
    ⟨"joint_verdict", .agent .A,
      "Verdict: " ++ synthesis.jointVerdict ++ "\nRationale: " ++ synthesis.rationale
        ++ "\nNext steps: " ++ synthesis.nextSteps⟩])

/-- All worker responses and tool events a paired-turns run consumes. -/
structure PairedRunInputs where
  aDraftRaw : String
  bFeedbackRaw : String
  aFinalRaw : String
  roundInputs : Nat → AgentId → RoundInputs
  reviewARaw : String
  reviewBRaw : String
  synthesisRaw : String

/-- The run artifacts claim C8 compares: rounds, shared journal, summary,
final review. -/
structure RunArtifacts where
  rounds : List RoundResult
  sharedJournal : List JEntry
  summary : RunSummary
  finalReview : FinalReview
deriving DecidableEq

/-- The later orchestrator's configuration, with the `executionMode` field it
added. -/
structure PairConfigV2 where
  maxRounds : Nat
  driverStartsAs : AgentId
  pauseStrategy : PauseStrategy
  turnPolicy : TurnPolicy
  executionMode : String

/-- `run` of the later orchestrator (part_002), restricted to the artifacts of
C8: dispatches on `executionMode`; the solo path consumes a different oracle
shape and is outside C8's scope, so it is `none` here. -/
def runArtifactsV2 (cfg : PairConfigV2) (task : String) (inp : PairedRunInputs) :
    Option RunArtifacts :=
  if cfg.executionMode == "solo_driver_then_reviewer" then none
  else
    let planning := collaborativePlanningModel inp.aDraftRaw inp.bFeedbackRaw inp.aFinalRaw
    let loopEnd := pairedLoopAux cfg.maxRounds cfg.turnPolicy
      (fun r d => runRoundV2 cfg.pauseStrategy r d (inp.roundInputs r d))
      cfg.maxRounds 1 (loopInit cfg.driverStartsAs)
    let fr := finalReviewModel inp.reviewARaw inp.reviewBRaw inp.synthesisRaw
    let summary := buildSummary loopEnd.contribA loopEnd.contribB
      loopEnd.checkpointCount loopEnd.swapCount
    some
      { rounds := loopEnd.rounds
        sharedJournal := ⟨"task", .system, task⟩ :: (planning.2 ++ loopEnd.journal ++ fr.2)
        summary
        finalReview := fr.1 }

/-- `run` of the earlier orchestrator (part_001), restricted to the artifacts
of C8 (no execution-mode dispatch: always collaborative planning + paired
loop). -/
def runArtifactsV1 (maxRounds : Nat) (driverStartsAs : AgentId)
    (pauseStrategy : PauseStrategy) (turnPolicy : TurnPolicy) (task : String)
    (inp : PairedRunInputs) : RunArtifacts :=
  let planning := collaborativePlanningModelV1 inp.aDraftRaw inp.bFeedbackRaw inp.aFinalRaw
  let loopEnd := pairedLoopAuxV1 maxRounds turnPolicy
    (fun r d => runRoundV1 pauseStrategy r d (inp.roundInputs r d))
    maxRounds 1 (loopInit driverStartsAs)
  let fr := finalReviewModelV1 inp.reviewARaw inp.reviewBRaw inp.synthesisRaw
  let summary := buildSummaryV1 loopEnd.contribA loopEnd.contribB
    loopEnd.checkpointCount loopEnd.swapCount
  { rounds := loopEnd.rounds
    sharedJournal := ⟨"task", .system, task⟩ :: (planning.2 ++ loopEnd.journal ++ fr.2)
    summary
    finalReview := fr.1 }

theorem succ_div_cases (N k : Nat) (hN : 0 < N) :
    (k + 1 < N * (k / N + 1) → (k + 1) / N = k / N) ∧
    (¬ k + 1 < N * (k / N + 1) → (k + 1) / N = k / N + 1) := by
  have hm := Nat.div_add_mod k N
  have hr : k % N < N := Nat.mod_lt _ hN
  constructor
  · intro h
    rw [Nat.mul_succ] at h
    have h1 : k % N + 1 < N := by omega
    have e : k + 1 = (k % N + 1) + N * (k / N) := by omega
    rw [e, Nat.add_mul_div_left _ _ hN, Nat.div_eq_of_lt h1, Nat.zero_add]
  · intro h
    rw [Nat.mul_succ] at h
    have e : k + 1 = N * (k / N + 1) := by rw [Nat.mul_succ]; omega
    rw [e, Nat.mul_div_cancel_left _ hN]

theorem trackerStep_counters (N : Nat) (tools : List String) (hN : 0 < N)
    (s : TrackerState) (id name : String) (err : Bool)
    (he : err = true ∨ tools.contains name = true)
    (k : Nat) (hc : s.countedEdits = k) (hcp : s.checkpointCount = k / N)
    (hnx : s.nextCheckpointAt = some (N * (k / N + 1))) :
    ((trackerStep (.every_n_file_edits N tools) s (.tool_execution_end id name err)).1).countedEdits
        = k + (if err then 0 else 1) ∧
    ((trackerStep (.every_n_file_edits N tools) s (.tool_execution_end id name err)).1).checkpointCount
        = (k + (if err then 0 else 1)) / N ∧
    ((trackerStep (.every_n_file_edits N tools) s (.tool_execution_end id name err)).1).nextCheckpointAt
        = some (N * ((k + (if err then 0 else 1)) / N + 1)) := by
  cases err with
  | true =>
    simp only [trackerStep, if_true, Bool.not_true]
    split_ifs <;> simp [hc, hcp, hnx]
  | false =>
    have hcontains : tools.contains name = true := by
      rcases he with h | h
      · exact absurd h (by simp)
      · exact h
    simp only [trackerStep, Bool.not_false, if_true]
    by_cases hew : (name == "edit" || name == "write") = true
    · simp only [hew, if_true, hcontains, Bool.not_true, if_false]
      by_cases hlt : k + 1 < N * (k / N + 1)
      · have hdiv := (succ_div_cases N k hN).1 hlt
        simp [ltCheckpoint, hc, hcp, hnx, hlt, hdiv]
      · have hdiv := (succ_div_cases N k hN).2 hlt
        rw [Nat.mul_succ] at hlt
        simp [ltCheckpoint, hc, hcp, hnx, hlt, hdiv, Nat.mul_succ]
    · simp only [hew, if_false, hcontains, Bool.not_true, if_false]
      by_cases hlt : k + 1 < N * (k / N + 1)
      · have hdiv := (succ_div_cases N k hN).1 hlt
        simp [ltCheckpoint, hc, hcp, hnx, hlt, hdiv]
      · have hdiv := (succ_div_cases N k hN).2 hlt
        rw [Nat.mul_succ] at hlt
        simp [ltCheckpoint, hc, hcp, hnx, hlt, hdiv, Nat.mul_succ]

theorem runTracker_counters (N : Nat) (tools : List String) (hN : 0 < N) :
    ∀ (events : List AgentEvent) (s : TrackerState) (k : Nat),
      (∀ e ∈ events, c1Event tools e = true) →
      s.countedEdits = k → s.checkpointCount = k / N →
      s.nextCheckpointAt = some (N * (k / N + 1)) →
      (runTracker (.every_n_file_edits N tools) s events).countedEdits
          = k + countSuccessfulEnds events ∧
      (runTracker (.every_n_file_edits N tools) s events).checkpointCount
          = (k + countSuccessfulEnds events) / N ∧
      (runTracker (.every_n_file_edits N tools) s events).nextCheckpointAt
          = some (N * ((k + countSuccessfulEnds events) / N + 1)) := by
  intro events
  induction events with
  | nil =>
    intro s k _ hc hcp hnx
    simpa [runTracker, countSuccessfulEnds] using ⟨hc, hcp, hnx⟩
  | cons e rest ih =>
    intro s k hall hc hcp hnx
    have hev : c1Event tools e = true := hall e (List.mem_cons_self e rest)
    obtain ⟨id, name, err, rfl⟩ : ∃ id name err, e = .tool_execution_end id name err := by
      cases e with
      | tool_execution_end id name err => exact ⟨id, name, err, rfl⟩
      | tool_execution_start _ _ _ => simp [c1Event] at hev
      | other => simp [c1Event] at hev
    have he : err = true ∨ tools.contains name = true := by
      cases err
      · right; simpa [c1Event] using hev
      · left; rfl
    have hstep := trackerStep_counters N tools hN s id name err he k hc hcp hnx
    have hrest := ih ((trackerStep (.every_n_file_edits N tools) s
        (.tool_execution_end id name err)).1) (k + (if err then 0 else 1))
      (fun e' he' => hall e' (List.mem_cons_of_mem _ he')) hstep.1 hstep.2.1 hstep.2.2
    have hrun : runTracker (.every_n_file_edits N tools) s (.tool_execution_end id name err :: rest)
        = runTracker (.every_n_file_edits N tools)
            ((trackerStep (.every_n_file_edits N tools) s (.tool_execution_end id name err)).1)
            rest := by
      simp [runTracker]
    have hcount : countSuccessfulEnds (AgentEvent.tool_execution_end id name err :: rest)
        = (if err then 0 else 1) + countSuccessfulEnds rest := by
      simp [countSuccessfulEnds, succIncr]
    rw [hrun, hcount]
    refine ⟨?_, ?_, ?_⟩
    · rw [hrest.1, Nat.add_assoc]
    · rw [hrest.2.1, Nat.add_assoc]
    · rw [hrest.2.2, Nat.add_assoc]

/-- C1: for the tracker configured with pause strategy `every_n_file_edits` and
`editsPerPause = N > 0`, processing any sequence of `tool_execution_end` events
in which every successful call names a counted tool (errored calls arbitrary)
yields `checkpointCount = ⌊K / N⌋` where `K` is the number of successful calls,
and `countedEdits = K` (errored calls never advance the counter). -/
theorem tracker_checkpoint_arithmetic (N : Nat) (tools : List String)
    (events : List AgentEvent) (hN : 0 < N)
    (hall : ∀ e ∈ events, c1Event tools e = true) :
    (runTracker (.every_n_file_edits N tools)
        (trackerInit (.every_n_file_edits N tools)) events).checkpointCount
      = countSuccessfulEnds events / N ∧
    (runTracker (.every_n_file_edits N tools)
        (trackerInit (.every_n_file_edits N tools)) events).countedEdits
      = countSuccessfulEnds events := by
  have h := runTracker_counters N tools hN events (trackerInit (.every_n_file_edits N tools)) 0
    hall rfl (by simp [trackerInit]) (by simp [trackerInit])
  exact ⟨by simpa using h.2.1, by simpa using h.1⟩

/-- Witness for C1 at `N = 3` and the event sequence
success, error, success, success, error, success (`K = 4`, one checkpoint). -/
theorem tracker_checkpoint_arithmetic_witness :
    (0 < 3 ∧ ∀ e ∈ ([.tool_execution_end "1" "edit" false,
        .tool_execution_end "2" "edit" true,
        .tool_execution_end "3" "write" false,
        .tool_execution_end "4" "edit" false,
        .tool_execution_end "5" "edit" true,
        .tool_execution_end "6" "write" false] : List AgentEvent),
      c1Event ["edit", "write"] e = true) ∧
    (runTracker (.every_n_file_edits 3 ["edit", "write"])
        (trackerInit (.every_n_file_edits 3 ["edit", "write"]))
        [.tool_execution_end "1" "edit" false,
         .tool_execution_end "2" "edit" true,
         .tool_execution_end "3" "write" false,
         .tool_execution_end "4" "edit" false,
         .tool_execution_end "5" "edit" true,
         .tool_execution_end "6" "write" false]).checkpointCount
      = countSuccessfulEnds [.tool_execution_end "1" "edit" false,
         .tool_execution_end "2" "edit" true,
         .tool_execution_end "3" "write" false,
         .tool_execution_end "4" "edit" false,
         .tool_execution_end "5" "edit" true,
         .tool_execution_end "6" "write" false] / 3 := by
  refine ⟨⟨by decide, by decide⟩, ?_⟩
  exact (tracker_checkpoint_arithmetic 3 ["edit", "write"] _ (by decide) (by decide)).1

/-! ## C4: pending-estimate map clearing -/

theorem mapGet_mapDelete (m : List (String × Nat)) (k : String) :
    mapGet (mapDelete m k) k = none := by
  induction m with
  | nil => rfl
  | cons kv rest ih =>
    by_cases h : kv.1 == k
    · have hk : kv.1 = k := by simpa using h
      simp [mapDelete, List.filter, hk, bne_self_eq_false] at ih ⊢
      simpa [mapDelete] using ih
    · have hk : (kv.1 != k) = true := by simpa [bne] using h
      simp only [mapDelete, List.filter, hk] at ih ⊢
      simpa [mapGet, show (kv.1 == k) = false by simpa [bne] using h] using ih

/-- C4 counterexample: under pause strategy `none`, an errored `edit` call's
pending estimate is NOT cleared — after `tool_execution_start`/`tool_execution_end`
for call id `c1` (errored), the pending map still holds the 5-byte estimate. -/
theorem tracker_pending_not_cleared_on_error_none_mode :
    mapGet ((runTracker .noneMode (trackerInit .noneMode)
      [.tool_execution_start "c1" "edit" (.object none (some "hello")),
       .tool_execution_end "c1" "edit" true]).pendingWriteEstimates) "c1" = some 5 := by
  decide

/-- C4 amended: after a `tool_execution_end` for a write-capable tool, the
pending entry for that call id is cleared whenever the strategy is
`every_n_file_edits` or the call did not error (under strategy `none` an
errored call's entry is retained); and an errored call's pending estimate is
never added to `estimatedWrittenBytes` nor counted in `editWriteCallCount`,
under either strategy. -/
theorem tracker_pending_cleared_amended (ps : PauseStrategy) (s : TrackerState)
    (id name : String) (err : Bool) (hname : name = "edit" ∨ name = "write") :
    ((ps ≠ .noneMode ∨ err = false) →
      mapGet ((trackerStep ps s (.tool_execution_end id name err)).1).pendingWriteEstimates id
        = none) ∧
    (err = true →
      ((trackerStep ps s (.tool_execution_end id name err)).1).estimatedWrittenBytes
          = s.estimatedWrittenBytes ∧
      ((trackerStep ps s (.tool_execution_end id name err)).1).editWriteCallCount
          = s.editWriteCallCount) := by
  have hew : (name == "edit" || name == "write") = true := by
    rcases hname with h | h <;> simp [h]
  constructor
  · intro hcase
    cases ps with
    | noneMode =>
      rcases hcase with h | h
      · exact absurd rfl h
      · subst h
        simp only [trackerStep, hew, Bool.not_false, Bool.true_and, if_true]
        exact mapGet_mapDelete _ _
    | every_n_file_edits n tools =>
      simp only [trackerStep, hew, if_true]
      cases err with
      | true => simpa using mapGet_mapDelete s.pendingWriteEstimates id
      | false =>
        by_cases hct : tools.contains name = true
        · simp only [Bool.not_false, if_true, hct, Bool.not_true, if_false]
          by_cases hlt : ltCheckpoint (s.countedEdits + 1) s.nextCheckpointAt = true <;>
            simp [hlt, mapGet_mapDelete]
        · have hct' : ¬ (name ∈ tools) := by simpa using hct
          simp [Bool.not_false, hct', mapGet_mapDelete]
  · intro herr
    subst herr
    cases ps with
    | noneMode => simp [trackerStep, hew]
    | every_n_file_edits n tools => simp [trackerStep, hew]

/-- Witness for C4 amended at strategy `every_n_file_edits 3`, an errored
`edit` end event on a state holding a pending estimate for the call. -/
theorem tracker_pending_cleared_amended_witness :
    mapGet ((trackerStep (.every_n_file_edits 3 ["edit", "write"])
        (runTracker (.every_n_file_edits 3 ["edit", "write"])
          (trackerInit (.every_n_file_edits 3 ["edit", "write"]))
          [.tool_execution_start "c1" "edit" (.object none (some "hello"))])
        (.tool_execution_end "c1" "edit" true)).1).pendingWriteEstimates "c1" = none := by
  exact (tracker_pending_cleared_amended (.every_n_file_edits 3 ["edit", "write"]) _
    "c1" "edit" true (Or.inl rfl)).1 (Or.inl (by decide))

/-! ## C2: totality and the `hasFeedback` characterization -/

/-- C2: `parseNavigatorReview` is total by construction (it is a Lean function
`String → NavigatorReview`), and `hasFeedback` is `false` iff the
public-feedback field (defaulting to `"NONE"` when the tag is absent), trimmed,
uppercased, and stripped of trailing `.`/`!`, equals `"NONE"`. -/
theorem parseNavigatorReview_hasFeedback_iff (raw : String) :
    (parseNavigatorReview raw).hasFeedback = false ↔
      stripTrailingDotBang (jsToUpper (jsTrim ((extractTag raw "public_feedback").getD "NONE")))
        = "NONE" := by
  simp [parseNavigatorReview]

/-! ## C3: the loop stops on `done` with no feedback, without a swap decision -/

theorem updateContrib_rounds (s : LoopState) (d : AgentId) (f : ContributionSummary → ContributionSummary) :
    (updateContrib s d f).rounds = s.rounds := by
  cases d <;> rfl

theorem updateContrib_swapCount (s : LoopState) (d : AgentId) (f : ContributionSummary → ContributionSummary) :
    (updateContrib s d f).swapCount = s.swapCount := by
  cases d <;> rfl

theorem updateContrib_driverId (s : LoopState) (d : AgentId) (f : ContributionSummary → ContributionSummary) :
    (updateContrib s d f).driverId = s.driverId := by
  cases d <;> rfl

theorem updateContrib_consulted (s : LoopState) (d : AgentId) (f : ContributionSummary → ContributionSummary) :
    (updateContrib s d f).consultedSwapDecisions = s.consultedSwapDecisions := by
  cases d <;> rfl

/-- C3: in paired-turns execution, a round whose driver report is `done` and
whose navigator review has no feedback (e.g. public feedback `NONE.`) ends the
loop: exactly this round is appended and no later round runs, the driver is
unchanged, the swap counter is unchanged, and `shouldSwapDriver` is not
consulted for this round (ghost trace unchanged). -/
theorem paired_loop_stops_on_done_no_feedback (maxRounds : Nat) (tp : TurnPolicy)
    (roundFn : Nat → AgentId → RoundResult × List JEntry) (fuel round : Nat) (s : LoopState)
    (hdone : ((roundFn round s.driverId).1).driverReport.status = "done")
    (hnf : ((roundFn round s.driverId).1).navigatorReview.hasFeedback = false) :
    (pairedLoopAux maxRounds tp roundFn (fuel + 1) round s).rounds
        = s.rounds ++ [(roundFn round s.driverId).1] ∧
    (pairedLoopAux maxRounds tp roundFn (fuel + 1) round s).swapCount = s.swapCount ∧
    (pairedLoopAux maxRounds tp roundFn (fuel + 1) round s).driverId = s.driverId ∧
    (pairedLoopAux maxRounds tp roundFn (fuel + 1) round s).consultedSwapDecisions
        = s.consultedSwapDecisions := by
  simp [pairedLoopAux, hdone, hnf, accumulateRound, updateContrib_rounds,
    updateContrib_swapCount, updateContrib_driverId, updateContrib_consulted]

/-- Witness for C3: driver reports `<status>done</status>`, navigator's public
feedback is the literal string `NONE.`; with 5 rounds of fuel remaining from
round 1 the loop returns exactly one round. -/
theorem paired_loop_stops_on_done_no_feedback_witness :
    (((fun (r : Nat) (d : AgentId) =>
        (({ round := r, driver := d, navigator := otherAgent d, pauseTriggered := false,
            checkpointCount := 0, editWriteCallCount := 0, estimatedWrittenBytes := 0,
            driverReport := parseDriverReport "<status>done</status><summary>s</summary>",
            navigatorReview := parseNavigatorReview
              "<private_reflection>ok</private_reflection><public_feedback>NONE.</public_feedback>",
            driverDecision := none } : RoundResult), ([] : List JEntry)))
        1 (loopInit .A).driverId).1.driverReport.status = "done" ∧
     ((fun (r : Nat) (d : AgentId) =>
        (({ round := r, driver := d, navigator := otherAgent d, pauseTriggered := false,
            checkpointCount := 0, editWriteCallCount := 0, estimatedWrittenBytes := 0,
            driverReport := parseDriverReport "<status>done</status><summary>s</summary>",
            navigatorReview := parseNavigatorReview
              "<private_reflection>ok</private_reflection><public_feedback>NONE.</public_feedback>",
            driverDecision := none } : RoundResult), ([] : List JEntry)))
        1 (loopInit .A).driverId).1.navigatorReview.hasFeedback = false) ∧
    (pairedLoopAux 8 (.same_driver_until_navigator_signoff 3 4)
        (fun (r : Nat) (d : AgentId) =>
          (({ round := r, driver := d, navigator := otherAgent d, pauseTriggered := false,
              checkpointCount := 0, editWriteCallCount := 0, estimatedWrittenBytes := 0,
              driverReport := parseDriverReport "<status>done</status><summary>s</summary>",
              navigatorReview := parseNavigatorReview
                "<private_reflection>ok</private_reflection><public_feedback>NONE.</public_feedback>",
              driverDecision := none } : RoundResult), ([] : List JEntry)))
        (4 + 1) 1 (loopInit .A)).swapCount = (loopInit .A).swapCount := by
  refine ⟨⟨by decide, by decide⟩, ?_⟩
  exact (paired_loop_stops_on_done_no_feedback 8 (.same_driver_until_navigator_signoff 3 4)
    _ 4 1 (loopInit .A) (by decide) (by decide)).2.1

/-! ## C7: replay determinism of the paired execution loop -/

theorem pairedLoopAux_congr (maxRounds : Nat) (tp : TurnPolicy)
    (f g : Nat → AgentId → RoundResult × List JEntry) (hfg : ∀ r d, f r d = g r d) :
    ∀ (fuel round : Nat) (s : LoopState),
      pairedLoopAux maxRounds tp f fuel round s = pairedLoopAux maxRounds tp g fuel round s := by
  intro fuel
  induction fuel with
  | zero => intro round s; rfl
  | succ n ih =>
    intro round s
    simp only [pairedLoopAux, hfg]
    split_ifs <;> first | rfl | exact ih _ _

theorem stampJournal_congr (c1 c2 : Nat → Nat) (h : ∀ i, c1 i = c2 i)
    (entries : List JEntry) : stampJournal c1 entries = stampJournal c2 entries := by
  unfold stampJournal
  apply List.map_congr_left
  intro p _
  rw [h p.2]

/-- C7: replaying the paired-turns loop with identical inputs (the same
per-round results and journal broadcasts, and the same timestamp clock)
produces an identical `RoundResult` sequence and an identical timestamped
shared journal. -/
theorem paired_execution_replay (maxRounds : Nat) (tp : TurnPolicy) (start : AgentId)
    (f g : Nat → AgentId → RoundResult × List JEntry) (c1 c2 : Nat → Nat)
    (hfg : ∀ r d, f r d = g r d) (hclock : ∀ i, c1 i = c2 i) :
    (runPairedLoop maxRounds tp start f).rounds = (runPairedLoop maxRounds tp start g).rounds ∧
    stampJournal c1 (runPairedLoop maxRounds tp start f).journal
      = stampJournal c2 (runPairedLoop maxRounds tp start g).journal := by
  have h := pairedLoopAux_congr maxRounds tp f g hfg maxRounds 1 (loopInit start)
  unfold runPairedLoop
  rw [h]
  exact ⟨rfl, stampJournal_congr c1 c2 hclock _⟩

/-- Witness for C7 with a concrete round oracle and clock, replayed against
themselves. -/
theorem paired_execution_replay_witness :
    stampJournal (fun i => i) (runPairedLoop 2 .alternate_each_round .A
        (fun (r : Nat) (d : AgentId) =>
          (({ round := r, driver := d, navigator := otherAgent d, pauseTriggered := false,
              checkpointCount := 0, editWriteCallCount := 0, estimatedWrittenBytes := 0,
              driverReport := parseDriverReport "continue",
              navigatorReview := parseNavigatorReview "no tags",
              driverDecision := none } : RoundResult),
            ([⟨"driver_report", .agent d, "r"⟩] : List JEntry)))).journal
      = stampJournal (fun i => i) (runPairedLoop 2 .alternate_each_round .A
        (fun (r : Nat) (d : AgentId) =>
          (({ round := r, driver := d, navigator := otherAgent d, pauseTriggered := false,
              checkpointCount := 0, editWriteCallCount := 0, estimatedWrittenBytes := 0,
              driverReport := parseDriverReport "continue",
              navigatorReview := parseNavigatorReview "no tags",
              driverDecision := none } : RoundResult),
            ([⟨"driver_report", .agent d, "r"⟩] : List JEntry)))).journal := by
  exact (paired_execution_replay 2 .alternate_each_round .A _ _ _ _
    (fun _ _ => rfl) (fun _ => rfl)).2

/-! ## C6: contribution shares sum to 100 within rounding -/

theorem jsRound_sum_bounds (x y : ℚ) (hxy : x + y = 1000) :
    (1000 : ℤ) ≤ jsRound x + jsRound y ∧ jsRound x + jsRound y ≤ 1001 := by
  unfold jsRound
  have h1 : ((⌊x + 1 / 2⌋ : ℤ) : ℚ) ≤ x + 1 / 2 := Int.floor_le _
  have h2 : ((⌊y + 1 / 2⌋ : ℤ) : ℚ) ≤ y + 1 / 2 := Int.floor_le _
  have h3 : x + 1 / 2 < (⌊x + 1 / 2⌋ : ℚ) + 1 := Int.lt_floor_add_one _
  have h4 : y + 1 / 2 < (⌊y + 1 / 2⌋ : ℚ) + 1 := Int.lt_floor_add_one _
  constructor
  · have h5 : (999 : ℚ) < ((⌊x + 1 / 2⌋ + ⌊y + 1 / 2⌋ : ℤ) : ℚ) := by push_cast; linarith
    have h6 : (999 : ℤ) < ⌊x + 1 / 2⌋ + ⌊y + 1 / 2⌋ := by exact_mod_cast h5
    omega
  · have h5 : ((⌊x + 1 / 2⌋ + ⌊y + 1 / 2⌋ : ℤ) : ℚ) ≤ 1001 := by push_cast; linarith
    exact_mod_cast h5

/-- C6: whenever total estimated written bytes is positive, the two
`roughCodeSharePercent` values assigned by `buildSummary` sum to 100 within
rounding: the sum lies within 1/10 of 100. -/
theorem buildSummary_share_sum (cA cB : ContributionSummary) (ck sw : Nat)
    (h : 0 < cA.estimatedWrittenBytes + cB.estimatedWrittenBytes) :
    |(buildSummary cA cB ck sw).contributionA.roughCodeSharePercent
        + (buildSummary cA cB ck sw).contributionB.roughCodeSharePercent - 100| ≤ 1 / 10 := by
  have hne : ((cA.estimatedWrittenBytes + cB.estimatedWrittenBytes : ℕ) : ℚ) ≠ 0 := by
    exact_mod_cast Nat.pos_iff_ne_zero.mp h
  have hne2 : (cA.estimatedWrittenBytes : ℚ) + (cB.estimatedWrittenBytes : ℚ) ≠ 0 := by
    push_cast at hne
    exact hne
  have hx : ((cA.estimatedWrittenBytes : ℚ)
        / ((cA.estimatedWrittenBytes + cB.estimatedWrittenBytes : ℕ) : ℚ) * 100) * 10
      + ((cB.estimatedWrittenBytes : ℚ)
        / ((cA.estimatedWrittenBytes + cB.estimatedWrittenBytes : ℕ) : ℚ) * 100) * 10
      = 1000 := by
    push_cast
    field_simp
    ring
  have hb := jsRound_sum_bounds _ _ hx
  simp only [buildSummary, if_pos h, roundPercent]
  have l1 : (1000 : ℚ) ≤ ((jsRound ((cA.estimatedWrittenBytes : ℚ)
      / ((cA.estimatedWrittenBytes + cB.estimatedWrittenBytes : ℕ) : ℚ) * 100 * 10)
      + jsRound ((cB.estimatedWrittenBytes : ℚ)
      / ((cA.estimatedWrittenBytes + cB.estimatedWrittenBytes : ℕ) : ℚ) * 100 * 10) : ℤ) : ℚ) := by
    exact_mod_cast hb.1
  have l2 : ((jsRound ((cA.estimatedWrittenBytes : ℚ)
      / ((cA.estimatedWrittenBytes + cB.estimatedWrittenBytes : ℕ) : ℚ) * 100 * 10)
      + jsRound ((cB.estimatedWrittenBytes : ℚ)
      / ((cA.estimatedWrittenBytes + cB.estimatedWrittenBytes : ℕ) : ℚ) * 100 * 10) : ℤ) : ℚ)
      ≤ 1001 := by
    exact_mod_cast hb.2
  push_cast at l1 l2
  rw [abs_le]
  push_cast
  constructor <;> linarith

/-- Witness for C6 at concrete byte totals 1 and 2 (shares 33.3 + 66.7). -/
theorem buildSummary_share_sum_witness :
    0 < 1 + 2 ∧
    |(buildSummary { contributionTemplate .A with estimatedWrittenBytes := 1 }
        { contributionTemplate .B with estimatedWrittenBytes := 2 } 0 0).contributionA.roughCodeSharePercent
      + (buildSummary { contributionTemplate .A with estimatedWrittenBytes := 1 }
        { contributionTemplate .B with estimatedWrittenBytes := 2 } 0 0).contributionB.roughCodeSharePercent
      - 100| ≤ 1 / 10 := by
  exact ⟨by decide, buildSummary_share_sum _ _ 0 0 (by decide)⟩

/-! ## C9: observer flush freezes the log -/

/-- C9: after a first `flush`, the observer is frozen: every later `flush`
(with any status, message or clock) returns the same summary and leaves the
state unchanged, and every later `record` is a no-op — it appends nothing to
the in-memory event list and emits nothing to the event stream. -/
theorem observer_flush_frozen (st : ObserverState) (now now2 now3 : Nat)
    (status status2 : String) (msg msg2 : Option String)
    (category name : String) (isError : Bool) :
    observerFlush ((observerFlush st now status msg).2) now2 status2 msg2
        = ((observerFlush st now status msg).1, (observerFlush st now status msg).2) ∧
    observerRecord ((observerFlush st now status msg).2) now3 category name isError
        = (observerFlush st now status msg).2 := by
  cases h : st.flushedSummary with
  | some s =>
    simp [observerFlush, observerRecord, h]
  | none =>
    simp [observerFlush, observerRecord, h, queueEventStreamLine]

/-! ## C5: run completes fully or re-raises after flushing `failed` -/

/-- C5: with an observer configured, `run` either returns a complete result
(task, agreed plan, rounds, final review, summary built from the execution's
contributions, shared journal) flushing `completed`, or re-raises the first
error thrown during planning, execution, or final review, after the observer
is flushed with status `failed` and that error message; there is no
partial-success return value. -/
theorem run_all_or_nothing (task : String) (steps : RunSteps)
    (obs : Option ObserverState) (now : Nat) (hobs : obs.isSome = true) :
    (∀ e, firstError steps = some e →
      (runModel task steps obs now).result = .error e ∧
      (runModel task steps obs now).flushCalls = [("failed", some e)]) ∧
    (firstError steps = none →
      ∃ r, (runModel task steps obs now).result = .ok r ∧
        (runModel task steps obs now).flushCalls = [("completed", none)] ∧
        r.task = task ∧ steps.planning = .ok r.agreedPlan ∧
        ∃ ex, steps.execution r.agreedPlan = .ok ex ∧ r.rounds = ex.rounds ∧
          r.sharedJournal = ex.journal ∧
          r.summary = buildSummary ex.contribA ex.contribB ex.checkpointCount ex.swapCount) := by
  obtain ⟨o, rfl⟩ := Option.isSome_iff_exists.mp hobs
  constructor
  · intro e he
    cases hp : steps.planning with
    | error e0 =>
      have hfe : firstError steps = some e0 := by simp [firstError, hp]
      have he0 : e0 = e := by simpa using hfe.symm.trans he
      subst he0
      simp [runModel, hp]
    | ok agreedPlan =>
      cases hx : steps.execution agreedPlan with
      | error e0 =>
        have hfe : firstError steps = some e0 := by simp [firstError, hp, hx]
        have he0 : e0 = e := by simpa using hfe.symm.trans he
        subst he0
        simp [runModel, hp, hx]
      | ok execution =>
        cases hfr : execution.finalReview with
        | some fr =>
          have hfe : firstError steps = none := by simp [firstError, hp, hx, hfr]
          exact absurd (hfe.symm.trans he) (by simp)
        | none =>
          cases hs : steps.finalReviewStep agreedPlan with
          | error e0 =>
            have hfe : firstError steps = some e0 := by simp [firstError, hp, hx, hfr, hs]
            have he0 : e0 = e := by simpa using hfe.symm.trans he
            subst he0
            simp [runModel, hp, hx, hfr, hs]
          | ok fr =>
            have hfe : firstError steps = none := by simp [firstError, hp, hx, hfr, hs]
            exact absurd (hfe.symm.trans he) (by simp)
  · intro he
    cases hp : steps.planning with
    | error e0 =>
      have hfe : firstError steps = some e0 := by simp [firstError, hp]
      exact absurd (hfe.symm.trans he) (by simp)
    | ok agreedPlan =>
      cases hx : steps.execution agreedPlan with
      | error e0 =>
        have hfe : firstError steps = some e0 := by simp [firstError, hp, hx]
        exact absurd (hfe.symm.trans he) (by simp)
      | ok execution =>
        cases hfr : execution.finalReview with
        | some fr =>
          refine ⟨{ task := task
                    agreedPlan := agreedPlan
                    rounds := execution.rounds
                    finalReview := fr
                    summary := buildSummary execution.contribA execution.contribB
                      execution.checkpointCount execution.swapCount
                    sharedJournal := execution.journal
                    observability := some (observerFlush o now "completed" none).1 },
            ?_, ?_, rfl, ?_, execution, ?_, rfl, rfl, rfl⟩
          · simp [runModel, hp, hx, hfr]
          · simp [runModel, hp, hx, hfr]
          · exact rfl
          · exact hx
        | none =>
          cases hs : steps.finalReviewStep agreedPlan with
          | error e0 =>
            have hfe : firstError steps = some e0 := by simp [firstError, hp, hx, hfr, hs]
            exact absurd (hfe.symm.trans he) (by simp)
          | ok fr =>
            refine ⟨{ task := task
                      agreedPlan := agreedPlan
                      rounds := execution.rounds
                      finalReview := fr
                      summary := buildSummary execution.contribA execution.contribB
                        execution.checkpointCount execution.swapCount
                      sharedJournal := execution.journal
                      observability := some (observerFlush o now "completed" none).1 },
              ?_, ?_, rfl, ?_, execution, ?_, rfl, rfl, rfl⟩
            · simp [runModel, hp, hx, hfr, hs]
            · simp [runModel, hp, hx, hfr, hs]
            · exact rfl
            · exact hx

/-- Witness for C5: planning fails with `boom`; with an observer configured the
outcome is the re-raised error and a single `("failed", boom)` flush. -/
theorem run_all_or_nothing_witness :
    firstError ⟨.error "boom", fun _ => .error "x", fun _ => .error "y"⟩ = some "boom" ∧
    (runModel "t" ⟨.error "boom", fun _ => .error "x", fun _ => .error "y"⟩
        (some ⟨0, [], "compact", 0, none, [], none, "log.json", none⟩) 0).flushCalls
      = [("failed", some "boom")] := by
  refine ⟨rfl, ?_⟩
  exact ((run_all_or_nothing "t" ⟨.error "boom", fun _ => .error "x", fun _ => .error "y"⟩
    (some ⟨0, [], "compact", 0, none, [], none, "log.json", none⟩) 0 rfl).1 "boom" rfl).2

/-! ## C10: safety-cap flags replace a previously selected alternate policy -/

theorem parseCliLoop_cons (acc : CliAcc) (arg : String) (rest : List String) :
    parseCliLoop acc (arg :: rest)
      = if arg == "" then parseCliLoop acc rest
        else if arg == "--help" || arg == "-h" then .error helpText
        else if arg == "--keep-workspace" then
          parseCliLoop { acc with keepWorkspace := true } rest
        else if !(jsStartsWith arg "--") then parseCliLoop acc rest
        else
          match rest with
          | [] => .error ("Missing value for " ++ arg)
          | next :: rest2 =>
            if next == "" then .error ("Missing value for " ++ arg)
            else
              match applyFlag arg next acc with
              | .ok acc2 => parseCliLoop acc2 rest2
              | .error e => .error e := by
  cases rest <;> rfl

theorem parseCliLoop_append :
    ∀ (n : Nat) (xs : List String), xs.length ≤ n →
      ∀ (acc acc2 : CliAcc) (ys : List String),
        parseCliLoop acc xs = .ok acc2 →
        parseCliLoop acc (xs ++ ys) = parseCliLoop acc2 ys := by
  intro n
  induction n with
  | zero =>
    intro xs hlen acc acc2 ys hok
    have hx : xs = [] := List.length_eq_zero.mp (Nat.le_zero.mp hlen)
    subst hx
    simp only [parseCliLoop] at hok
    injection hok with h
    subst h
    rfl
  | succ n ih =>
    intro xs hlen acc acc2 ys hok
    cases xs with
    | nil =>
      simp only [parseCliLoop] at hok
      injection hok with h
      subst h
      rfl
    | cons arg rest =>
      have hlen' : rest.length ≤ n := by
        simp only [List.length_cons] at hlen
        omega
      rw [List.cons_append]
      rw [parseCliLoop_cons] at hok ⊢
      by_cases h1 : (arg == "") = true
      · rw [if_pos h1] at hok ⊢
        exact ih rest hlen' acc acc2 ys hok
      · rw [if_neg h1] at hok ⊢
        by_cases h2 : (arg == "--help" || arg == "-h") = true
        · rw [if_pos h2] at hok
          exact absurd hok (by simp)
        · rw [if_neg h2] at hok ⊢
          by_cases h3 : (arg == "--keep-workspace") = true
          · rw [if_pos h3] at hok ⊢
            exact ih rest hlen' _ acc2 ys hok
          · rw [if_neg h3] at hok ⊢
            by_cases h4 : (!(jsStartsWith arg "--")) = true
            · rw [if_pos h4] at hok ⊢
              exact ih rest hlen' acc acc2 ys hok
            · rw [if_neg h4] at hok ⊢
              cases rest with
              | nil => exact absurd hok (by simp)
              | cons next rest2 =>
                rw [List.cons_append]
                dsimp only at hok ⊢
                by_cases h5 : (next == "") = true
                · rw [if_pos h5] at hok
                  exact absurd hok (by simp)
                · rw [if_neg h5] at hok ⊢
                  cases happ : applyFlag arg next acc with
                  | error e =>
                    rw [happ] at hok
                    exact absurd hok (by simp)
                  | ok acc3 =>
                    rw [happ] at hok
                    dsimp only at hok ⊢
                    have hlen2 : rest2.length ≤ n := by
                      simp only [List.length_cons] at hlen'
                      omega
                    exact ih rest2 hlen2 acc3 acc2 ys hok

theorem applyFlag_preserves_turnPolicy (arg next : String) (acc acc2 : CliAcc)
    (hnp : arg ∉ policyFlags) (h : applyFlag arg next acc = .ok acc2) :
    acc2.pair.turnPolicy = acc.pair.turnPolicy := by
  simp only [policyFlags, List.mem_cons, List.not_mem_nil, or_false, not_or] at hnp
  obtain ⟨n1, n2, n3⟩ := hnp
  simp only [applyFlag] at h
  by_cases e1 : (arg == "--task") = true
  · rw [if_pos e1] at h
    injection h with h
    subst h
    rfl
  rw [if_neg e1] at h
  by_cases e2 : (arg == "--cwd") = true
  · rw [if_pos e2] at h
    injection h with h
    subst h
    rfl
  rw [if_neg e2] at h
  by_cases e3 : (arg == "--max-rounds") = true
  · rw [if_pos e3] at h
    cases hp : parsePositiveInteger "--max-rounds" next with
    | error e => rw [hp] at h; exact absurd h (by simp)
    | ok m => rw [hp] at h; injection h with h; subst h; rfl
  rw [if_neg e3] at h
  by_cases e4 : (arg == "--driver-start") = true
  · rw [if_pos e4] at h
    cases hp : parseAgentId next with
    | error e => rw [hp] at h; exact absurd h (by simp)
    | ok a => rw [hp] at h; injection h with h; subst h; rfl
  rw [if_neg e4] at h
  by_cases e5 : (arg == "--turn-policy") = true
  · exact absurd (by simpa using e5) n1
  rw [if_neg e5] at h
  by_cases e6 : (arg == "--max-consecutive-rounds") = true
  · exact absurd (by simpa using e6) n2
  rw [if_neg e6] at h
  by_cases e7 : (arg == "--max-consecutive-checkpoints") = true
  · exact absurd (by simpa using e7) n3
  rw [if_neg e7] at h
  by_cases e8 : (arg == "--pause-mode") = true
  · rw [if_pos e8] at h
    by_cases p1 : (next == "none") = true
    · rw [if_pos p1] at h
      injection h with h
      subst h
      rfl
    rw [if_neg p1] at h
    by_cases p2 : (next == "every_n_file_edits") = true
    · rw [if_pos p2] at h
      injection h with h
      subst h
      rfl
    rw [if_neg p2] at h
    exact absurd h (by simp)
  rw [if_neg e8] at h
  by_cases e9 : (arg == "--edits-per-pause") = true
  · rw [if_pos e9] at h
    cases hps : acc.pair.pauseStrategy with
    | noneMode =>
      simp only [hps] at h
      simp only [defaultEveryNFileEditsPause] at h
      cases hp : parsePositiveInteger "--edits-per-pause" next with
      | error e => rw [hp] at h; exact absurd h (by simp)
      | ok m => rw [hp] at h; injection h with h; subst h; rfl
    | every_n_file_edits ep ct =>
      simp only [hps] at h
      cases hp : parsePositiveInteger "--edits-per-pause" next with
      | error e => rw [hp] at h; exact absurd h (by simp)
      | ok m => rw [hp] at h; injection h with h; subst h; rfl
  rw [if_neg e9] at h
  by_cases e10 : (arg == "--model-a-provider") = true
  · rw [if_pos e10] at h
    injection h with h
    subst h
    rfl
  rw [if_neg e10] at h
  by_cases e11 : (arg == "--model-a-id") = true
  · rw [if_pos e11] at h
    injection h with h
    subst h
    rfl
  rw [if_neg e11] at h
  by_cases e12 : (arg == "--model-a-thinking") = true
  · rw [if_pos e12] at h
    cases hp : parseThinking next with
    | error e => rw [hp] at h; exact absurd h (by simp)
    | ok t => rw [hp] at h; injection h with h; subst h; rfl
  rw [if_neg e12] at h
  by_cases e13 : (arg == "--model-b-provider") = true
  · rw [if_pos e13] at h
    injection h with h
    subst h
    rfl
  rw [if_neg e13] at h
  by_cases e14 : (arg == "--model-b-id") = true
  · rw [if_pos e14] at h
    injection h with h
    subst h
    rfl
  rw [if_neg e14] at h
  by_cases e15 : (arg == "--model-b-thinking") = true
  · rw [if_pos e15] at h
    cases hp : parseThinking next with
    | error e => rw [hp] at h; exact absurd h (by simp)
    | ok t => rw [hp] at h; injection h with h; subst h; rfl
  rw [if_neg e15] at h
  by_cases e16 : (arg == "--output") = true
  · rw [if_pos e16] at h
    injection h with h
    subst h
    rfl
  rw [if_neg e16] at h
  by_cases e17 : (arg == "--log-file") = true
  · rw [if_pos e17] at h
    injection h with h
    subst h
    rfl
  rw [if_neg e17] at h
  by_cases e18 : (arg == "--event-log-file") = true
  · rw [if_pos e18] at h
    injection h with h
    subst h
    rfl
  rw [if_neg e18] at h
  by_cases e19 : (arg == "--event-stream-mode") = true
  · rw [if_pos e19] at h
    cases hp : parseEventStreamMode next with
    | error e => rw [hp] at h; exact absurd h (by simp)
    | ok m => rw [hp] at h; injection h with h; subst h; rfl
  rw [if_neg e19] at h
  by_cases e20 : (arg == "--workspace-mode") = true
  · rw [if_pos e20] at h
    cases hp : parseWorkspaceMode next with
    | error e => rw [hp] at h; exact absurd h (by simp)
    | ok m => rw [hp] at h; injection h with h; subst h; rfl
  rw [if_neg e20] at h
  exact absurd h (by simp)

theorem parseCliLoop_preserves_turnPolicy :
    ∀ (n : Nat) (xs : List String), xs.length ≤ n →
      (∀ x ∈ xs, x ∉ policyFlags) →
      ∀ (acc acc2 : CliAcc), parseCliLoop acc xs = .ok acc2 →
        acc2.pair.turnPolicy = acc.pair.turnPolicy := by
  intro n
  induction n with
  | zero =>
    intro xs hlen _ acc acc2 hok
    have hx : xs = [] := List.length_eq_zero.mp (Nat.le_zero.mp hlen)
    subst hx
    simp only [parseCliLoop] at hok
    injection hok with h
    subst h
    rfl
  | succ n ih =>
    intro xs hlen hnp acc acc2 hok
    cases xs with
    | nil =>
      simp only [parseCliLoop] at hok
      injection hok with h
      subst h
      rfl
    | cons arg rest =>
      have hlen' : rest.length ≤ n := by
        simp only [List.length_cons] at hlen
        omega
      have hnp' : ∀ x ∈ rest, x ∉ policyFlags := fun x hx => hnp x (List.mem_cons_of_mem _ hx)
      have hnpa : arg ∉ policyFlags := hnp arg (List.mem_cons_self _ _)
      rw [parseCliLoop_cons] at hok
      by_cases h1 : (arg == "") = true
      · rw [if_pos h1] at hok
        exact ih rest hlen' hnp' acc acc2 hok
      · rw [if_neg h1] at hok
        by_cases h2 : (arg == "--help" || arg == "-h") = true
        · rw [if_pos h2] at hok
          exact absurd hok (by simp)
        · rw [if_neg h2] at hok
          by_cases h3 : (arg == "--keep-workspace") = true
          · rw [if_pos h3] at hok
            exact ih rest hlen' hnp' { acc with keepWorkspace := true } acc2 hok
          · rw [if_neg h3] at hok
            by_cases h4 : (!(jsStartsWith arg "--")) = true
            · rw [if_pos h4] at hok
              exact ih rest hlen' hnp' acc acc2 hok
            · rw [if_neg h4] at hok
              cases rest with
              | nil => exact absurd hok (by simp)
              | cons next rest2 =>
                dsimp only at hok
                by_cases h5 : (next == "") = true
                · rw [if_pos h5] at hok
                  exact absurd hok (by simp)
                · rw [if_neg h5] at hok
                  cases happ : applyFlag arg next acc with
                  | error e =>
                    rw [happ] at hok
                    exact absurd hok (by simp)
                  | ok acc3 =>
                    rw [happ] at hok
                    dsimp only at hok
                    have hlen2 : rest2.length ≤ n := by
                      simp only [List.length_cons] at hlen'
                      omega
                    have hnp2 : ∀ x ∈ rest2, x ∉ policyFlags :=
                      fun x hx => hnp' x (List.mem_cons_of_mem _ hx)
                    calc acc2.pair.turnPolicy
                        = acc3.pair.turnPolicy := ih rest2 hlen2 hnp2 acc3 acc2 hok
                      _ = acc.pair.turnPolicy :=
                          applyFlag_preserves_turnPolicy arg next acc acc3 hnpa happ

theorem parseCliLoop_flag_step (arg next : String) (rest : List String) (acc : CliAcc)
    (h0 : (arg == "") = false) (h1 : (arg == "--help" || arg == "-h") = false)
    (h2 : (arg == "--keep-workspace") = false) (h3 : jsStartsWith arg "--" = true)
    (h4 : (next == "") = false) :
    parseCliLoop acc (arg :: next :: rest)
      = match applyFlag arg next acc with
        | .ok acc2 => parseCliLoop acc2 rest
        | .error e => .error e := by
  rw [parseCliLoop_cons]
  simp [h0, h1, h2, h3, h4]

theorem applyFlag_turn_policy_alternate (acc : CliAcc) :
    applyFlag "--turn-policy" "alternate_each_round" acc
      = .ok { acc with pair := { acc.pair with turnPolicy := .alternate_each_round } } := by
  simp [applyFlag]

theorem applyFlag_cap_rounds_from_alternate (next : String) (acc : CliAcc) (n : Nat)
    (halt : acc.pair.turnPolicy = .alternate_each_round)
    (hp : parsePositiveInteger "--max-consecutive-rounds" next = .ok n) :
    applyFlag "--max-consecutive-rounds" next acc
      = .ok { acc with pair := { acc.pair with
          turnPolicy := .same_driver_until_navigator_signoff n 4 } } := by
  simp [applyFlag, halt, defaultStickyTurnPolicy, hp]

theorem applyFlag_cap_checkpoints_from_alternate (next : String) (acc : CliAcc) (n : Nat)
    (halt : acc.pair.turnPolicy = .alternate_each_round)
    (hp : parsePositiveInteger "--max-consecutive-checkpoints" next = .ok n) :
    applyFlag "--max-consecutive-checkpoints" next acc
      = .ok { acc with pair := { acc.pair with
          turnPolicy := .same_driver_until_navigator_signoff 3 n } } := by
  simp [applyFlag, halt, defaultStickyTurnPolicy, hp]

theorem parseCliLoop_turn_policy_alternate_step (acc : CliAcc) (rest : List String) :
    parseCliLoop acc ("--turn-policy" :: "alternate_each_round" :: rest)
      = parseCliLoop
          { acc with pair := { acc.pair with turnPolicy := .alternate_each_round } } rest := by
  rw [parseCliLoop_flag_step "--turn-policy" "alternate_each_round" rest acc
      (by decide) (by decide) (by decide) (by decide) (by decide),
    applyFlag_turn_policy_alternate]

/-- C10 counterexample: in the argument list
`--task t --turn-policy alternate_each_round --max-consecutive-rounds 5
--turn-policy alternate_each_round`, the flag `--turn-policy
alternate_each_round` appears and a later `--max-consecutive-rounds 5`
appears, yet `parseCli` returns turn policy `alternate_each_round` — not the
sticky policy with the cap set, as the claim (quantified over every such
argument list) requires. -/
theorem parseCli_cap_after_alternate_counterexample :
    (parseCli ["--task", "t", "--turn-policy", "alternate_each_round",
        "--max-consecutive-rounds", "5", "--turn-policy", "alternate_each_round"] "/w").toOption.map
      (fun cfg => cfg.pair.turnPolicy) = some .alternate_each_round := by
  decide

/-- C10 amended: when `--turn-policy alternate_each_round` is followed by a
safety-cap flag (`--max-consecutive-rounds n` or `--max-consecutive-checkpoints
n`) with no other turn-policy-affecting flag in between or after (and the
intervening and trailing segments parse on their own), `parseCli` silently
replaces the alternate policy with the sticky default carrying the given cap,
the other cap at its default (3 rounds / 4 checkpoints). -/
theorem parseCli_cap_replaces_alternate
    (pre mid post : List String) (capFlag s cwd0 : String) (n : Nat)
    (acc1 acc2 : CliAcc) (cfg : CliConfigM)
    (hcap : capFlag = "--max-consecutive-rounds" ∨ capFlag = "--max-consecutive-checkpoints")
    (hpre : parseCliLoop (cliInit cwd0) pre = .ok acc1)
    (hmid : parseCliLoop
      { acc1 with pair := { acc1.pair with turnPolicy := .alternate_each_round } } mid
        = .ok acc2)
    (hmidP : ∀ x ∈ mid, x ∉ policyFlags)
    (hpostP : ∀ x ∈ post, x ∉ policyFlags)
    (hn : parsePositiveInteger capFlag s = .ok n)
    (hs : (s == "") = false)
    (hok : parseCli
      (pre ++ ("--turn-policy" :: "alternate_each_round" :: (mid ++ capFlag :: s :: post)))
      cwd0 = .ok cfg) :
    cfg.pair.turnPolicy
      = if capFlag = "--max-consecutive-rounds" then .same_driver_until_navigator_signoff n 4
        else .same_driver_until_navigator_signoff 3 n := by
  have halt2 : acc2.pair.turnPolicy = .alternate_each_round := by
    have h := parseCliLoop_preserves_turnPolicy mid.length mid le_rfl hmidP _ acc2 hmid
    simpa using h
  rcases hcap with hcap | hcap <;> subst hcap
  · rw [if_pos rfl]
    have hfull : parseCliLoop (cliInit cwd0)
        (pre ++ ("--turn-policy" :: "alternate_each_round" ::
          (mid ++ "--max-consecutive-rounds" :: s :: post)))
        = parseCliLoop { acc2 with pair := { acc2.pair with
            turnPolicy := .same_driver_until_navigator_signoff n 4 } } post := by
      rw [parseCliLoop_append pre.length pre le_rfl _ _ _ hpre,
        parseCliLoop_turn_policy_alternate_step,
        parseCliLoop_append mid.length mid le_rfl _ _ _ hmid,
        parseCliLoop_flag_step "--max-consecutive-rounds" s post acc2
          (by decide) (by decide) (by decide) (by decide) hs,
        applyFlag_cap_rounds_from_alternate s acc2 n halt2 hn]
    simp only [parseCli, hfull] at hok
    cases hpost : parseCliLoop { acc2 with pair := { acc2.pair with
        turnPolicy := .same_driver_until_navigator_signoff n 4 } } post with
    | error e =>
      rw [hpost] at hok
      exact absurd hok (by simp)
    | ok accF =>
      rw [hpost] at hok
      dsimp only at hok
      by_cases ht : (accF.task == "") = true
      · rw [if_pos ht] at hok
        exact absurd hok (by simp)
      · rw [if_neg ht] at hok
        injection hok with hok
        subst hok
        have hpres : accF.pair.turnPolicy
            = TurnPolicy.same_driver_until_navigator_signoff n 4 := by
          have h := parseCliLoop_preserves_turnPolicy post.length post le_rfl hpostP _ accF hpost
          simpa using h
        simpa using hpres
  · rw [if_neg (by decide)]
    have hfull : parseCliLoop (cliInit cwd0)
        (pre ++ ("--turn-policy" :: "alternate_each_round" ::
          (mid ++ "--max-consecutive-checkpoints" :: s :: post)))
        = parseCliLoop { acc2 with pair := { acc2.pair with
            turnPolicy := .same_driver_until_navigator_signoff 3 n } } post := by
      rw [parseCliLoop_append pre.length pre le_rfl _ _ _ hpre,
        parseCliLoop_turn_policy_alternate_step,
        parseCliLoop_append mid.length mid le_rfl _ _ _ hmid,
        parseCliLoop_flag_step "--max-consecutive-checkpoints" s post acc2
          (by decide) (by decide) (by decide) (by decide) hs,
        applyFlag_cap_checkpoints_from_alternate s acc2 n halt2 hn]
    simp only [parseCli, hfull] at hok
    cases hpost : parseCliLoop { acc2 with pair := { acc2.pair with
        turnPolicy := .same_driver_until_navigator_signoff 3 n } } post with
    | error e =>
      rw [hpost] at hok
      exact absurd hok (by simp)
    | ok accF =>
      rw [hpost] at hok
      dsimp only at hok
      by_cases ht : (accF.task == "") = true
      · rw [if_pos ht] at hok
        exact absurd hok (by simp)
      · rw [if_neg ht] at hok
        injection hok with hok
        subst hok
        have hpres : accF.pair.turnPolicy
            = TurnPolicy.same_driver_until_navigator_signoff 3 n := by
          have h := parseCliLoop_preserves_turnPolicy post.length post le_rfl hpostP _ accF hpost
          simpa using h
        simpa using hpres

/-- Witness for C10 amended: `--task t --turn-policy alternate_each_round
--max-consecutive-rounds 5` yields the sticky policy with 5 rounds and the
default 4 checkpoints. -/
theorem parseCli_cap_replaces_alternate_witness :
    (parseCli ["--task", "t", "--turn-policy", "alternate_each_round",
        "--max-consecutive-rounds", "5"] "/w").toOption.map (fun cfg => cfg.pair.turnPolicy)
      = some (.same_driver_until_navigator_signoff 5 4) := by
  cases hok : parseCli ["--task", "t", "--turn-policy", "alternate_each_round",
      "--max-consecutive-rounds", "5"] "/w" with
  | error e =>
    have hsome : (parseCli ["--task", "t", "--turn-policy", "alternate_each_round",
        "--max-consecutive-rounds", "5"] "/w").toOption.isSome = true := by decide
    rw [hok] at hsome
    exact absurd hsome (by simp [Except.toOption])
  | ok cfg =>
    have h := parseCli_cap_replaces_alternate ["--task", "t"] [] []
      "--max-consecutive-rounds" "5" "/w" 5
      { cliInit "/w" with task := jsTrim "t" }
      { { cliInit "/w" with task := jsTrim "t" } with
        pair := { (cliInit "/w").pair with turnPolicy := .alternate_each_round } }
      cfg (Or.inl rfl) (by rfl) (by rfl)
      (fun x hx => absurd hx (List.not_mem_nil x))
      (fun x hx => absurd hx (List.not_mem_nil x))
      (by rfl) (by decide) hok
    simp only [Except.toOption]
    rw [if_pos rfl] at h
    simp [h]

/-! ## C8: the two orchestrator versions agree on paired-turns runs -/

theorem onDriverEventV1_eq_trackerStep : onDriverEventV1 = trackerStep := by
  funext ps s e
  cases e <;> cases ps <;> rfl

theorem runRoundV1_eq_runRoundV2 (ps : PauseStrategy) (r : Nat) (d : AgentId)
    (inp : RoundInputs) : runRoundV1 ps r d inp = runRoundV2 ps r d inp := by
  simp only [runRoundV1, runRoundV2, runTrackerV1, runTracker,
    onDriverEventV1_eq_trackerStep, trackerInit]

theorem pairedLoopAuxV1_eq (maxRounds : Nat) (tp : TurnPolicy)
    (f g : Nat → AgentId → RoundResult × List JEntry) (hfg : ∀ r d, f r d = g r d) :
    ∀ (fuel round : Nat) (s : LoopState),
      pairedLoopAuxV1 maxRounds tp f fuel round s = pairedLoopAux maxRounds tp g fuel round s := by
  intro fuel
  induction fuel with
  | zero => intro round s; rfl
  | succ n ih =>
    intro round s
    simp only [pairedLoopAuxV1, pairedLoopAux, hfg]
    split_ifs <;> first | rfl | exact ih _ _

theorem buildSummaryV1_eq : buildSummaryV1 = buildSummary := by
  funext a b c d
  rfl

theorem collaborativePlanningModelV1_eq :
    collaborativePlanningModelV1 = collaborativePlanningModel := by
  funext a b c
  rfl

theorem finalReviewModelV1_eq : finalReviewModelV1 = finalReviewModel := by
  funext a b c
  rfl

/-- C8: for paired-turns execution, the earlier orchestrator (inline tracker
and loop) and the later one (extracted `createDriverExecutionTracker`,
`runPairedExecution`, execution-mode dispatch) produce identical rounds,
shared journal, summary, and final review from the same configuration, worker
responses, and tool-event sequences. -/
theorem orchestrator_versions_equivalent (cfg : PairConfigV2) (task : String)
    (inp : PairedRunInputs) (hmode : cfg.executionMode = "paired_turns") :
    runArtifactsV2 cfg task inp
      = some (runArtifactsV1 cfg.maxRounds cfg.driverStartsAs cfg.pauseStrategy
          cfg.turnPolicy task inp) := by
  have hne : (cfg.executionMode == "solo_driver_then_reviewer") = false := by
    rw [hmode]
    decide
  have hloop := pairedLoopAuxV1_eq cfg.maxRounds cfg.turnPolicy
    (fun r d => runRoundV1 cfg.pauseStrategy r d (inp.roundInputs r d))
    (fun r d => runRoundV2 cfg.pauseStrategy r d (inp.roundInputs r d))
    (fun r d => runRoundV1_eq_runRoundV2 cfg.pauseStrategy r d (inp.roundInputs r d))
    cfg.maxRounds 1 (loopInit cfg.driverStartsAs)
  simp only [runArtifactsV2, runArtifactsV1, hne, Bool.false_eq_true, if_false,
    hloop, buildSummaryV1_eq, collaborativePlanningModelV1_eq, finalReviewModelV1_eq]

/-- Witness for C8: a one-round configuration in `paired_turns` mode with
concrete responses. -/
theorem orchestrator_versions_equivalent_witness :
    (({ maxRounds := 1, driverStartsAs := .A, pauseStrategy := .noneMode,
        turnPolicy := .alternate_each_round,
        executionMode := "paired_turns" } : PairConfigV2).executionMode = "paired_turns") ∧
    runArtifactsV2
        { maxRounds := 1, driverStartsAs := .A, pauseStrategy := .noneMode,
          turnPolicy := .alternate_each_round, executionMode := "paired_turns" } "t"
        { aDraftRaw := "p", bFeedbackRaw := "c", aFinalRaw := "f",
          roundInputs := fun _ _ =>
            { driverResponse := "<status>done</status>", driverEvents := [],
              navigatorResponse := "<public_feedback>NONE</public_feedback>",
              decisionResponse := "", decisionEvents := [] },
          reviewARaw := "ra", reviewBRaw := "rb", synthesisRaw := "sy" }
      = some (runArtifactsV1 1 .A .noneMode .alternate_each_round "t"
        { aDraftRaw := "p", bFeedbackRaw := "c", aFinalRaw := "f",
          roundInputs := fun _ _ =>
            { driverResponse := "<status>done</status>", driverEvents := [],
              navigatorResponse := "<public_feedback>NONE</public_feedback>",
              decisionResponse := "", decisionEvents := [] },
          reviewARaw := "ra", reviewBRaw := "rb", synthesisRaw := "sy" }) := by
  exact ⟨rfl, orchestrator_versions_equivalent _ "t" _ rfl⟩

end PairingBots
